import Mathlib

/-!
A verification development for the SAP_DEMO query pipeline.

The Python sources (`report_identifier.py`, `query_planner.py`,
`query_executor.py`, `schema_analyzer.py`) are shallowly embedded below:
pandas DataFrames become `Table` (a column-name list plus row-major value
lists), Python floats become `ℚ`, Python `datetime` values become integer
day numbers, dictionaries become structures or association lists, and
Python exceptions become `Option` where they can actually be raised and
escape.  The regex scans of the planner are embedded as executable
character-list matchers faithful to the specific patterns used by the
source.  Python string formatting (thousands separators, fixed-point
rendering) is modelled by plain decimal rendering; these strings are
carried but never load-bearing.
-/

set_option maxRecDepth 10000

namespace SapDemo

/-- A cell value of the in-memory table.  `null` models NaN/None, `num`
models Python ints/floats (as exact rationals), `date` models a pandas
timestamp as a day number. -/
inductive Value
  | null
  | str (s : String)
  | num (q : ℚ)
  | date (d : Int)
  deriving DecidableEq, Repr

/-- An in-memory table: named columns and row-major values, embedding a
pandas DataFrame. -/
structure Table where
  cols : List String
  rows : List (List Value)
  deriving DecidableEq, Repr

/-- Per-column metadata of a schema analysis (`column_analysis` entries). -/
structure ColInfo where
  sapPatterns : List String
  dataCategory : String
  deriving DecidableEq, Repr

/-- The `file_info` part of a schema analysis. -/
structure FileInfo where
  totalRows : Nat
  totalColumns : Nat
  deriving DecidableEq, Repr

/-- The schema-analysis object consumed by the planner and the executor
(`schema_analysis` dictionary; `column_analysis` keeps file column order). -/
structure Schema where
  columnAnalysis : List (String × ColInfo)
  fileInfo : FileInfo
  sapTableType : String
  schemaSummary : String
  reportConfidence : Option ℚ
  deriving DecidableEq, Repr

/-! ## Character and string utilities (embedding Python `str` methods) -/

/-- Lower-case a string, as Python `str.lower` restricted to ASCII. -/
def lowerStr (s : String) : String := ⟨s.data.map Char.toLower⟩

/-- Upper-case a string, as Python `str.upper` restricted to ASCII. -/
def upperStr (s : String) : String := ⟨s.data.map Char.toUpper⟩

/-- Python `str.strip`: drop leading and trailing whitespace. -/
def stripStr (s : String) : String :=
  ⟨((s.data.dropWhile Char.isWhitespace).reverse.dropWhile Char.isWhitespace).reverse⟩

/-- Whether `s` starts with the literal characters `pat`. -/
def litAt : List Char → List Char → Bool
  | [], _ => true
  | _ :: _, [] => false
  | p :: ps, c :: cs => p == c && litAt ps cs

/-- Whether `pat` occurs contiguously in `hay` (Python `pat in hay`);
the empty pattern occurs everywhere. -/
def containsChars (hay pat : List Char) : Bool :=
  match hay with
  | [] => litAt pat []
  | _ :: t => litAt pat hay || containsChars t pat

/-- Python `needle in haystack` on strings. -/
def strContains (hay needle : String) : Bool := containsChars hay.data needle.data

/-- Digit list to its numeric value (the digits of a Python `int` literal). -/
def digitsVal (cs : List Char) : Nat :=
  cs.foldl (fun a c => a * 10 + (c.toNat - '0'.toNat)) 0

/-- Render a natural number, used where Python interpolates an `int`. -/
def natStr (n : Nat) : String := toString n

/-- Render a rational, modelling Python float formatting by plain decimal
or fraction rendering (never load-bearing). -/
def ratStr (q : ℚ) : String := toString q

/-! ## Report identifier (`report_identifier.py`) -/

/-- One entry of the fixed signature table (`self.table_patterns`). -/
structure Sig where
  name : String
  requiredColumns : List String
  optionalColumns : List String
  descr : String
  threshold : ℚ
  deriving DecidableEq, Repr

/-- The fixed signature table of `SAPReportIdentifier.__init__`, in
declaration order (note the duplicated `RACCT` entries, kept verbatim). -/
def tablePatterns : List Sig :=
  [ ⟨"BKPF", ["BUKRS", "BELNR", "GJAHR", "BLART", "BUDAT"],
      ["WAERS", "BKTXT", "USNAM", "TCODE", "CPUDT"],
      "Accounting Document Header", 0.8⟩,
    ⟨"BSEG", ["BUKRS", "BELNR", "GJAHR", "BUZEI", "KOART", "KONTO"],
      ["SHKZG", "DMBTR", "WRBTR", "LIFNR", "KUNNR", "KOSTL"],
      "Accounting Document Segment", 0.8⟩,
    ⟨"LFA1", ["LIFNR", "NAME1"],
      ["ORT01", "LAND1", "SPERR", "LOEVM", "STRAS", "PSTLZ"],
      "Vendor Master Data", 0.7⟩,
    ⟨"KNA1", ["KUNNR", "NAME1"],
      ["ORT01", "LAND1", "SPERR", "LOEVM", "STRAS", "PSTLZ"],
      "Customer Master Data", 0.7⟩,
    ⟨"SKAT", ["KTOPL", "SAKNR", "TXT50"],
      ["XLOEV", "SPERR", "KTOKS", "XSPEA"],
      "G/L Account Master Data", 0.7⟩,
    ⟨"CSKS", ["KOKRS", "KOSTL", "DATBI"],
      ["KOSAR", "VERAK", "VERAK_USER", "SPERR"],
      "Cost Center Master Data", 0.7⟩,
    ⟨"CSKA", ["KOKRS", "KOSAR", "DATBI"],
      ["VERAK", "VERAK_USER", "SPERR"],
      "Cost Element Master Data", 0.7⟩,
    ⟨"FAGLFLEXA", ["RBUKRS", "RACCT", "RYEAR", "RACCT"],
      ["RTCUR", "RHCUR", "RUNIT", "SEGMENT"],
      "New G/L Account Balances", 0.8⟩,
    ⟨"FAGLFLEXT", ["RBUKRS", "RACCT", "RYEAR", "RACCT", "RTCUR"],
      ["RHCUR", "RUNIT", "SEGMENT"],
      "New G/L Account Line Items", 0.8⟩ ]

/-- Embeds `_calculate_confidence`: weighted fraction of signature columns
present among the (already normalized) input columns. -/
def calcConfidence (columns : List String) (sig : Sig) : ℚ :=
  let requiredMatches : ℚ := (sig.requiredColumns.filter (fun c => columns.contains c)).length
  let requiredScore : ℚ :=
    if sig.requiredColumns.isEmpty then 0 else requiredMatches / sig.requiredColumns.length
  let optionalMatches : ℚ := (sig.optionalColumns.filter (fun c => columns.contains c)).length
  let optionalScore : ℚ :=
    if sig.optionalColumns.isEmpty then 0 else optionalMatches / sig.optionalColumns.length
  if ¬ sig.requiredColumns.isEmpty ∧ ¬ sig.optionalColumns.isEmpty then
    requiredScore * 0.7 + optionalScore * 0.3
  else if ¬ sig.requiredColumns.isEmpty then
    requiredScore
  else if ¬ sig.optionalColumns.isEmpty then
    optionalScore * 0.5
  else 0

/-- The result dictionary of `identify_report_type`. -/
structure IdentifyResult where
  tableType : String
  confidence : ℚ
  descr : String
  matchedColumns : List String
  missingColumns : List String
  extraColumns : List String
  deriving DecidableEq, Repr

/-- Embeds `_get_matched_columns`. -/
def matchedColumnsOf (columns : List String) (sig : Sig) : List String :=
  columns.filter (fun c => (sig.requiredColumns ++ sig.optionalColumns).contains c)

/-- Embeds `_get_missing_columns`. -/
def missingColumnsOf (columns : List String) (sig : Sig) : List String :=
  sig.requiredColumns.filter (fun c => ¬ columns.contains c)

/-- Embeds `_get_extra_columns`. -/
def extraColumnsOf (columns : List String) (sig : Sig) : List String :=
  columns.filter (fun c => ¬ (sig.requiredColumns ++ sig.optionalColumns).contains c)

/-- The `best_match` dictionary built for a selected signature. -/
def mkBestMatch (columns : List String) (sig : Sig) : IdentifyResult :=
  ⟨sig.name, calcConfidence columns sig, sig.descr,
    matchedColumnsOf columns sig, missingColumnsOf columns sig, extraColumnsOf columns sig⟩

/-- The selection loop of `identify_report_type`: walk the signature
table keeping the best match so far (`confidence > highest_confidence and
confidence >= pattern.threshold`). -/
def identifyGo (columns : List String) :
    List Sig → Option IdentifyResult → ℚ → Option IdentifyResult
  | [], best, _ => best
  | s :: rest, best, highest =>
    let c := calcConfidence columns s
    if c > highest ∧ c ≥ s.threshold then
      identifyGo columns rest (some (mkBestMatch columns s)) c
    else
      identifyGo columns rest best highest

/-- The sentinel result returned when no signature clears its threshold. -/
def unknownResult (columns : List String) : IdentifyResult :=
  ⟨"UNKNOWN", 0, "Unknown SAP Table", [], [], columns⟩

/-- Embeds `identify_report_type`: normalize the column names (upper-case,
strip), score every signature, return the best qualifying match or the
`UNKNOWN` sentinel. -/
def identifyReportType (columns : List String) : IdentifyResult :=
  let normalized := columns.map (fun c => stripStr (upperStr c))
  match identifyGo normalized tablePatterns none 0 with
  | some r => r
  | none => unknownResult normalized

/-- Embeds `SchemaAnalyzer._detect_sap_table_type_fast`: first signature whose
hard-coded required subset is fully present wins. -/
def detectSapTableTypeFast (columns : List String) : String :=
  let names := columns.map upperStr
  if (["BUKRS", "BELNR", "GJAHR", "BLART"].all (fun c => names.contains c)) then "BKPF"
  else if (["BUKRS", "BELNR", "GJAHR", "BUZEI", "KOART"].all (fun c => names.contains c)) then "BSEG"
  else if (["LIFNR", "NAME1"].all (fun c => names.contains c)) then "LFA1"
  else if (["KUNNR", "NAME1"].all (fun c => names.contains c)) then "KNA1"
  else if (["KTOPL", "SAKNR"].all (fun c => names.contains c)) then "SKAT"
  else "UNKNOWN"

/-! ## Pattern matchers

The planner uses a handful of fixed regular expressions (`re.search` /
`re.findall`).  Each is embedded as an executable matcher on `List Char`:
`chomp*` functions consume one regex atom and return the remaining input,
`try*` functions attempt a whole pattern at one position, `scanFirst`
embeds `re.search` (leftmost position wins) and `scanAll` embeds
`re.findall` (non-overlapping, continuing after each match). -/

/-- Regex class `\w` (ASCII): letters, digits, underscore. -/
def chWord (c : Char) : Bool := c.isAlphanum || c == '_'

/-- Regex class `[\w\s]`. -/
def chWordSpace (c : Char) : Bool := c.isAlphanum || c == '_' || c.isWhitespace

/-- Regex class `[\s\?\.!]` (the junk allowed after a captured phrase). -/
def chTail (c : Char) : Bool := c.isWhitespace || c == '?' || c == '.' || c == '!'

/-- Regex class `[a-z0-9]`. -/
def chLowerAl (c : Char) : Bool := (('a' ≤ c ∧ c ≤ 'z') : Bool) || c.isDigit

/-- Regex class `[\d,]`. -/
def chDigitComma (c : Char) : Bool := c.isDigit || c == ','

/-- Consume a literal. -/
def chompLit (lit s : List Char) : Option (List Char) :=
  if litAt lit s then some (s.drop lit.length) else none

/-- Consume `\s+` (greedy; every use site is followed by a non-space
atom, so greediness is exact). -/
def chompSpaces1 : List Char → Option (List Char)
  | [] => none
  | c :: t => if c.isWhitespace then some (t.dropWhile Char.isWhitespace) else none

/-- Consume `\s*`. -/
def chompSpaces0 (s : List Char) : List Char := s.dropWhile Char.isWhitespace

/-- Consume a nonempty run of characters of a class (greedy `X+`),
capturing it. -/
def chompClass1 (p : Char → Bool) (s : List Char) : Option (List Char × List Char) :=
  let cap := s.takeWhile p
  if cap.isEmpty then none else some (cap, s.drop cap.length)

/-- Consume `\d+`, capturing it. -/
def chompDigits1 : List Char → Option (List Char × List Char) :=
  chompClass1 Char.isDigit

/-- Consume exactly `k` digits (`\d{k}`), capturing them. -/
def chompDigitsExact (k : Nat) (s : List Char) : Option (List Char × List Char) :=
  let cap := s.take k
  if cap.length == k && cap.all Char.isDigit then some (cap, s.drop k) else none

/-- A chain of literal words separated by `\s+`. -/
def chompWords : List (List Char) → List Char → Option (List Char)
  | [], s => some s
  | [w], s => chompLit w s
  | w :: ws, s => (chompLit w s).bind fun r => (chompSpaces1 r).bind (chompWords (ws))

/-- Embeds `re.search`: try the pattern at each position, leftmost match wins
(the position at end of input included). -/
def scanFirst (tryf : List Char → Option α) : List Char → Option α
  | [] => tryf []
  | c :: t =>
    match tryf (c :: t) with
    | some a => some a
    | none => scanFirst tryf t

/-- Fueled worker for `scanAll`. -/
def scanAllGo (tryf : List Char → Option (α × List Char)) : Nat → List Char → List α
  | 0, _ => []
  | _ + 1, [] =>
    match tryf [] with
    | some (a, _) => [a]
    | none => []
  | fuel + 1, c :: t =>
    match tryf (c :: t) with
    | some (a, rest) => a :: scanAllGo tryf fuel rest
    | none => scanAllGo tryf fuel t

/-- Embeds `re.findall`: all non-overlapping matches, scanning left to right and
resuming after each match.  Every pattern used here consumes at least one
character on success, so fuel `length + 1` is exact. -/
def scanAll (tryf : List Char → Option (α × List Char)) (s : List Char) : List α :=
  scanAllGo tryf (s.length + 1) s

/-! ## Query planner (`query_planner.py`) -/

/-- The `value` payload of a filter condition (operator-specific). -/
inductive FilterVal
  | vnone
  | vnum (q : ℚ)
  | vstr (s : String)
  | vrel (number : Nat) (unit : String)
  | vrange (start stop : Int)
  | vquarter (q : Nat)
  | vstrs (vs : List String)
  deriving DecidableEq, Repr

/-- A filter condition dictionary (`{'column', 'operator', 'value',
'description'}`); `column` is `none` when no column could be resolved. -/
structure Filter where
  column : Option String
  op : String
  value : FilterVal
  description : String
  deriving DecidableEq, Repr

/-- A sorting condition (`{'column', 'ascending', 'limit'}`). -/
structure SortCond where
  column : String
  ascending : Bool
  slimit : Option Nat
  deriving DecidableEq, Repr

/-- A query plan / parsed intent (the two share their shape in the
source).  `schemaInfo` is the inline schema duplicate carried only by
`explain_schema` plans. -/
structure QueryPlan where
  action : String := "show"
  filters : List Filter := []
  grouping : List String := []
  aggregation : List (String × String) := []
  sorting : List SortCond := []
  qlimit : Option Nat := none
  timePeriod : Option Nat := none
  originalQuestion : String := ""
  schemaInfo : Option Schema := none
  deriving DecidableEq, Repr

/-- Python truthiness of the optional row limit (`if limit:`): `None`
and `0` are both falsy. -/
def limTruthy : Option Nat → Bool
  | none => false
  | some l => l != 0

/-- Column lookup by semantic pattern tag: first column of
`column_analysis` (file order) carrying the tag.  The planner and the
executor define identical copies of these `_find_*_column` helpers; they
are embedded once. -/
def findByTag (schema : Schema) (tag : String) : Option String :=
  (schema.columnAnalysis.find? (fun p => p.2.sapPatterns.contains tag)).map Prod.fst

/-- Embeds `_find_amount_column`. -/
def findAmountColumn (schema : Schema) : Option String :=
  (schema.columnAnalysis.find? (fun p =>
    p.2.sapPatterns.contains ("local_amount") || p.2.sapPatterns.contains ("document_amount"))).map Prod.fst

/-- Embeds `_find_date_column`. -/
def findDateColumn (schema : Schema) : Option String := findByTag schema ("posting_date")

/-- Embeds `_find_document_type_column`. -/
def findDocumentTypeColumn (schema : Schema) : Option String := findByTag schema ("document_type")

/-- Embeds `_find_vendor_column`. -/
def findVendorColumn (schema : Schema) : Option String := findByTag schema ("vendor_number")

/-- Embeds `_find_customer_column`. -/
def findCustomerColumn (schema : Schema) : Option String := findByTag schema ("customer_number")

/-- Embeds `_find_account_column`. -/
def findAccountColumn (schema : Schema) : Option String := findByTag schema ("gl_account")

/-- Embeds `_find_cost_center_column`. -/
def findCostCenterColumn (schema : Schema) : Option String :=
  (schema.columnAnalysis.find? (fun p => strContains (lowerStr p.1) ("cost_center"))).map Prod.fst

/-- The SAP synonym table of `_find_matching_column` (verbatim, including
the unreachable `'doc type'` key whose space can never survive
normalization). -/
def sapSynonyms : List (String × String) :=
  [ ("transactioncode", "TCODE"), ("transactioncodes", "TCODE"),
    ("doc type", "BLART"), ("documenttype", "BLART"), ("documenttypes", "BLART"),
    ("user", "USNAM"), ("users", "USNAM"),
    ("companycode", "BUKRS"), ("postingdate", "BUDAT"), ("amount", "DMBTR"),
    ("vendor", "LIFNR"), ("customer", "KUNNR"),
    ("costcenter", "KOSTL"), ("costcenters", "KOSTL") ]

/-- Embeds `search_term.lower().replace('_', '').replace(' ', '')`. -/
def normTerm (s : String) : String :=
  ⟨(lowerStr s).data.filter (fun c => ¬ (c == '_' || c == ' '))⟩

/-- Association-list lookup (Python `dict` read). -/
def alistLookup (k : String) : List (String × String) → Option String
  | [] => none
  | (k', v) :: t => if k == k' then some v else alistLookup k t

/-- Embeds `_find_matching_column`: synonym table, then normalized substring
match against known columns, then semantic-pattern match, then raw
substring fallback. -/
def findMatchingColumn (schema : Schema) (searchTerm : String) : Option String :=
  let norm := normTerm searchTerm
  match alistLookup norm sapSynonyms with
  | some v => some v
  | none =>
    match schema.columnAnalysis.find? (fun p =>
        let colNorm := normTerm p.1
        norm == colNorm || strContains colNorm norm || strContains norm colNorm) with
    | some p => some p.1
    | none =>
      match schema.columnAnalysis.find? (fun p => p.2.sapPatterns.contains norm) with
      | some p => some p.1
      | none =>
        match schema.columnAnalysis.find? (fun p => strContains (lowerStr p.1) norm) with
        | some p => some p.1
        | none => none

/-! ### `most frequent / most common / top N` fast path -/

/-- Tail-capture pattern `LIT([\w\s]+)[\s\?\.!]*$` at one position:
maximal `[\w\s]+` run, with only `[\s\?\.!]` junk allowed afterwards. -/
def tryTail (lit : List Char) (s : List Char) : Option (List Char) :=
  (chompLit lit s).bind fun r =>
    (chompClass1 chWordSpace r).bind fun (cap, rest) =>
      if rest.all chTail then some cap else none

/-- Middle-capture pattern `LITA([\w\s]+)LITB[\s\?\.!]*$` at one
position; the capture is greedy, so the longest split wins. -/
def tryMid (litA litB : List Char) (s : List Char) : Option (List Char) :=
  (chompLit litA s).bind fun r =>
    let maxCap := r.takeWhile chWordSpace
    (List.range maxCap.length).reverse.findSome? fun i =>
      let cap := r.take (i + 1)
      let rest := r.drop (i + 1)
      (chompLit litB rest).bind fun rest' =>
        if rest'.all chTail then some cap else none

/-- Pattern `top (\d+) ([\w\s]+)[\s\?\.!]*$` at one position. -/
def tryTopN (s : List Char) : Option (List Char × List Char) :=
  (chompLit (("top ").data) s).bind fun r =>
    (chompDigits1 r).bind fun (ds, r') =>
      (chompLit ((" ").data) r').bind fun r'' =>
        (chompClass1 chWordSpace r'').bind fun (cap, rest) =>
          if rest.all chTail then some (ds, cap) else none

/-- The ordered `most_freq_patterns` list: each entry yields the `top N`
count and the captured column phrase when it matches. -/
def mostFreqMatches (q : List Char) : List (Option (Nat × List Char)) :=
  [ (scanFirst (tryTail (("most frequent ").data)) q).map (fun c => (5, c)),
    (scanFirst (tryTail (("most common ").data)) q).map (fun c => (5, c)),
    (scanFirst tryTopN q).map (fun p => (digitsVal p.1, p.2)),
    (scanFirst (tryTail (("top ").data)) q).map (fun c => (5, c)),
    (scanFirst (tryMid (("which ").data) ((" are used most").data)) q).map (fun c => (5, c)),
    (scanFirst (tryMid (("what ").data) ((" are used most").data)) q).map (fun c => (5, c)),
    (scanFirst (tryTail (("what are the most common ").data)) q).map (fun c => (5, c)),
    (scanFirst (tryTail (("what are the most frequent ").data)) q).map (fun c => (5, c)),
    (scanFirst (tryMid (("what ").data) ((" were used most frequently").data)) q).map (fun c => (5, c)),
    (scanFirst (tryMid (("what ").data) ((" were used most commonly").data)) q).map (fun c => (5, c)),
    (scanFirst (tryMid (("which ").data) ((" were used most frequently").data)) q).map (fun c => (5, c)),
    (scanFirst (tryMid (("which ").data) ((" were used most commonly").data)) q).map (fun c => (5, c)) ]

/-- The fast-path loop of `_parse_question_intent`: first pattern that
matches *and* whose captured phrase resolves to a column returns a
complete intent; otherwise fall through. -/
def mostFreqIntent (schema : Schema) (q : List Char) : Option QueryPlan :=
  (mostFreqMatches q).findSome? fun m =>
    m.bind fun (n, capture) =>
      (findMatchingColumn schema ⟨capture⟩).map fun col =>
        { action := "show", filters := [], grouping := [col],
          aggregation := [("*", "count")],
          sorting := [⟨"count", false, some n⟩],
          qlimit := some n, timePeriod := none }

/-! ### Action, filters, grouping, aggregation, sorting, limit, period -/

/-- Python `len(question.split())`, as a word-boundary counting fold. -/
def wordCount (l : List Char) : Nat :=
  (l.foldl
    (fun (st : Bool × Nat) c =>
      if c.isWhitespace then (false, st.2)
      else if st.1 then st else (true, st.2 + 1))
    (false, 0)).2

/-- Embeds `_extract_action`: the ordered keyword decision tree. -/
def extractAction (q : List Char) : String :=
  let s : String := ⟨q⟩
  if (["explain", "what", "describe", "tell me about"].any (fun w => strContains s w)) &&
     (["report", "table", "data", "schema", "structure", "columns", "fields", "file", "this", "does"].any
       (fun w => strContains s w)) then "explain_schema"
  else if (["overdue", "past due", "vendor", "customer", "invoice", "payment", "business"].any
       (fun w => strContains s w)) then "business_analysis"
  else if (["show", "display", "list", "find", "get", "see", "view"].any (fun w => strContains s w)) then
    "show"
  else if (["count", "how many", "number of", "total records"].any (fun w => strContains s w)) then
    "count"
  else if (["sum", "total", "average", "mean", "avg"].any (fun w => strContains s w)) then
    (if strContains s ("sum") || strContains s ("total") then "sum" else "average")
  else if wordCount q ≤ 5 then "explain_schema"
  else "show"

/-- Amount-threshold pattern `KW\s+\$?([\d,]+)` at one position
(`KW` a chain of literal words). -/
def tryAmount (words : List (List Char)) (s : List Char) : Option (List Char × List Char) :=
  (chompWords words s).bind fun r0 =>
    (chompSpaces1 r0).bind fun r1 =>
      let r2 := if litAt (("$").data) r1 then r1.drop 1 else r1
      chompClass1 chDigitComma r2

/-- Commas removed, then read as a number (`float(match.replace(',',''))`;
the pattern admits no decimal point, so the value is integral). -/
def amountOf (cap : List Char) : ℚ := digitsVal (cap.filter Char.isDigit)

/-- The description Python formats as `f"Amount over ${amount:,.2f}"`
(currency formatting modelled as plain rendering). -/
def amountDescr (dir : String) (a : ℚ) : String :=
  "Amount " ++ dir ++ " $" ++ ratStr a

/-- One relative-date unit token of `last/past N (day|week|...)s?`. -/
def chompUnit (s : List Char) : Option (List Char × List Char) :=
  (chompLit (("day").data) s).map (fun r => ((("day").data : List Char), r)) <|>
  (chompLit (("week").data) s).map (fun r => ((("week").data : List Char), r)) <|>
  (chompLit (("month").data) s).map (fun r => ((("month").data : List Char), r)) <|>
  (chompLit (("quarter").data) s).map (fun r => ((("quarter").data : List Char), r)) <|>
  (chompLit (("year").data) s).map (fun r => ((("year").data : List Char), r))

/-- Relative-date pattern `KW\s+(\d+)\s+(day|week|month|quarter|year)s?`
at one position. -/
def tryRelDate (kw : List Char) (s : List Char) : Option ((Nat × String) × List Char) :=
  (chompLit kw s).bind fun r0 =>
    (chompSpaces1 r0).bind fun r1 =>
      (chompDigits1 r1).bind fun (ds, r2) =>
        (chompSpaces1 r2).bind fun r3 =>
          (chompUnit r3).map fun (u, r4) =>
            let r5 := if litAt (("s").data) r4 then r4.drop 1 else r4
            ((digitsVal ds, (⟨u⟩ : String)), r5)

/-- Year-range pattern `(\d{4})\s*-\s*(\d{4})` at one position. -/
def tryYearRange (s : List Char) : Option ((Nat × Nat) × List Char) :=
  (chompDigitsExact 4 s).bind fun (a, r0) =>
    let r1 := chompSpaces0 r0
    (chompLit (("-").data) r1).bind fun r2 =>
      let r3 := chompSpaces0 r2
      (chompDigitsExact 4 r3).map fun (b, r4) => ((digitsVal a, digitsVal b), r4)

/-- Quarter pattern `q(\d)` at one position. -/
def tryQuarterPat (s : List Char) : Option (Nat × List Char) :=
  (chompLit (("q").data) s).bind fun r =>
    match r with
    | c :: t => if c.isDigit then some (digitsVal [c], t) else none
    | [] => none

/-- Document-type keyword alternation
`(invoice|payment|credit|debit|journal)` at one position. -/
def tryDocWord (s : List Char) : Option (String × List Char) :=
  (chompLit (("invoice").data) s).map (fun r => (("invoice" : String), r)) <|>
  (chompLit (("payment").data) s).map (fun r => (("payment" : String), r)) <|>
  (chompLit (("credit").data) s).map (fun r => (("credit" : String), r)) <|>
  (chompLit (("debit").data) s).map (fun r => (("debit" : String), r)) <|>
  (chompLit (("journal").data) s).map (fun r => (("journal" : String), r))

/-- Pattern `document\s+type\s+([a-z0-9]+)` at one position. -/
def tryDocType (s : List Char) : Option (String × List Char) :=
  (chompLit (("document").data) s).bind fun r0 =>
    (chompSpaces1 r0).bind fun r1 =>
      (chompLit (("type").data) r1).bind fun r2 =>
        (chompSpaces1 r2).bind fun r3 =>
          (chompClass1 chLowerAl r3).map fun (cap, rest) => ((⟨cap⟩ : String), rest)

/-- Pattern `blart\s*[=:]\s*([a-z0-9]+)` at one position. -/
def tryBlart (s : List Char) : Option (String × List Char) :=
  (chompLit (("blart").data) s).bind fun r0 =>
    let r1 := chompSpaces0 r0
    (match r1 with
     | c :: t => if c == '=' || c == ':' then some t else none
     | [] => none).bind fun r2 =>
      let r3 := chompSpaces0 r2
      (chompClass1 chLowerAl r3).map fun (cap, rest) => ((⟨cap⟩ : String), rest)

/-- Embeds `_extract_filters`: amount thresholds, date expressions,
document-type keywords, and the overdue phrase, in source order. -/
def extractFilters (schema : Schema) (q : List Char) : List Filter :=
  let amountFilters :=
    ([ ([("over").data], ">", "over"),
       ([("above").data], ">", "over"),
       ([("greater").data, ("than").data], ">", "over"),
       ([("under").data], "<", "under"),
       ([("below").data], "<", "under"),
       ([("less").data, ("than").data], "<", "under") ] :
        List (List (List Char) × String × String)).flatMap fun (words, op, dir) =>
      (scanAll (tryAmount words) q).map fun cap =>
        let a := amountOf cap
        ({ column := findAmountColumn schema, op := op, value := FilterVal.vnum a,
           description := amountDescr dir a } : Filter)
  let relFilters (kw : List Char) : List Filter :=
    (scanAll (tryRelDate kw) q).map fun (n, unit) =>
      { column := findDateColumn schema, op := "relative_date",
        value := FilterVal.vrel n unit,
        description := "Last " ++ natStr n ++ " " ++ unit ++ "s" }
  let yearFilters :=
    (scanAll tryYearRange q).map fun (a, b) =>
      ({ column := findDateColumn schema, op := "year_range",
         value := FilterVal.vrange a b,
         description := "Years " ++ natStr a ++ "-" ++ natStr b } : Filter)
  let quarterFilters :=
    (scanAll tryQuarterPat q).map fun n =>
      ({ column := findDateColumn schema, op := "quarter",
         value := FilterVal.vquarter n,
         description := "Q" ++ natStr n } : Filter)
  let docFilters :=
    ((scanAll tryDocWord q) ++ (scanAll tryDocType q) ++ (scanAll tryBlart q)).map fun w =>
      ({ column := findDocumentTypeColumn schema, op := "==",
         value := FilterVal.vstr (upperStr w),
         description := "Document type: " ++ upperStr w } : Filter)
  let overdueFilters :=
    if strContains ⟨q⟩ ("overdue") || strContains ⟨q⟩ ("past due") then
      [({ column := findDateColumn schema, op := "overdue", value := FilterVal.vnone,
          description := "Overdue items" } : Filter)]
    else []
  amountFilters ++ relFilters (("last").data) ++ relFilters (("past").data) ++
    yearFilters ++ quarterFilters ++ docFilters ++ overdueFilters

/-- Grouping pattern `KW\s+(\w+)` at one position. -/
def tryGroupWord (words : List (List Char)) (s : List Char) : Option (String × List Char) :=
  (chompWords words s).bind fun r0 =>
    (chompSpaces1 r0).bind fun r1 =>
      (chompClass1 chWord r1).map fun (cap, rest) => ((⟨cap⟩ : String), rest)

/-- Fueled worker for `dedupKeepFirst` (structural recursion on the
fuel, so the kernel can evaluate it; fuel `length` is always enough). -/
def dedupGo {α : Type} [DecidableEq α] : Nat → List α → List α
  | _, [] => []
  | 0, _ :: _ => []
  | fuel + 1, v :: t => v :: dedupGo fuel (t.filter (fun u => u ≠ v))

/-- Deduplicate keeping first occurrences; models `list(set(grouping))`
and `value_counts` key order, both fixed within a CPython process. -/
def dedupKeepFirst {α : Type} [DecidableEq α] (l : List α) : List α :=
  dedupGo l.length l

/-- Embeds `_extract_grouping`: `by/group by/per/for each` captures plus the
hardcoded vendor/customer/account/cost-center terms, deduplicated. -/
def extractGrouping (schema : Schema) (q : List Char) : List String :=
  let patternCols :=
    ([ [("by").data],
       [("group").data, ("by").data],
       [("per").data],
       [("for").data, ("each").data] ] : List (List (List Char))).flatMap fun words =>
      (scanAll (tryGroupWord words) q).filterMap (fun cap => findMatchingColumn schema cap)
  let s : String := ⟨q⟩
  let vendorCols :=
    if strContains s ("vendor") || strContains s ("supplier") then
      (findVendorColumn schema).toList
    else []
  let customerCols :=
    if strContains s ("customer") || strContains s ("client") then
      (findCustomerColumn schema).toList
    else []
  let accountCols :=
    if strContains s ("account") then (findAccountColumn schema).toList else []
  let costCenterCols :=
    if strContains s ("cost center") then (findCostCenterColumn schema).toList else []
  dedupKeepFirst (patternCols ++ vendorCols ++ customerCols ++ accountCols ++ costCenterCols)

/-- Insert-or-overwrite on an insertion-ordered dictionary (Python
`d[k] = v`: the key keeps its original position, the value is updated). -/
def dictInsert (k v : String) : List (String × String) → List (String × String)
  | [] => [(k, v)]
  | (k', v') :: t => if k' == k then (k', v) :: t else (k', v') :: dictInsert k v t

/-- Embeds `_extract_aggregation`: ordered keyword checks building the
column-to-function dictionary (`'*'` means row count). -/
def extractAggregation (schema : Schema) (q : List Char) : List (String × String) :=
  let s : String := ⟨q⟩
  let a0 : List (String × String) := []
  let a1 :=
    if (["sum", "total", "summarize"].any (fun w => strContains s w)) then
      match findAmountColumn schema with
      | some c => dictInsert c ("sum") a0
      | none => a0
    else a0
  let a2 :=
    if (["count", "how many"].any (fun w => strContains s w)) then
      dictInsert ("*") ("count") a1
    else a1
  if (["average", "mean", "avg"].any (fun w => strContains s w)) then
    match findAmountColumn schema with
    | some c => dictInsert c ("mean") a2
    | none => a2
  else a2

/-- Limit pattern `KW\s+(\d+)` at one position. -/
def tryKwNum (kw : List Char) (s : List Char) : Option (Nat × List Char) :=
  (chompLit kw s).bind fun r0 =>
    (chompSpaces1 r0).bind fun r1 =>
      (chompDigits1 r1).map fun (ds, rest) => (digitsVal ds, rest)

/-- Embeds `_extract_sorting`: top-N descending on the amount column,
lowest/bottom ascending. -/
def extractSorting (schema : Schema) (q : List Char) : List SortCond :=
  let s : String := ⟨q⟩
  let topSorts :=
    if strContains s ("top") || strContains s ("highest") then
      match scanFirst (tryKwNum (("top").data)) q with
      | some (n, _) =>
        match findAmountColumn schema with
        | some c => [({ column := c, ascending := false, slimit := some n } : SortCond)]
        | none => []
      | none => []
    else []
  let bottomSorts :=
    if strContains s ("lowest") || strContains s ("bottom") then
      match findAmountColumn schema with
      | some c => [({ column := c, ascending := true, slimit := none } : SortCond)]
      | none => []
    else []
  topSorts ++ bottomSorts

/-- Embeds `_extract_limit`: the first of `first/last/limit/only N` patterns
that matches anywhere in the question. -/
def extractLimit (q : List Char) : Option Nat :=
  match scanFirst (tryKwNum (("first").data)) q with
  | some (n, _) => some n
  | none =>
    match scanFirst (tryKwNum (("last").data)) q with
    | some (n, _) => some n
    | none =>
      match scanFirst (tryKwNum (("limit").data)) q with
      | some (n, _) => some n
      | none =>
        match scanFirst (tryKwNum (("only").data)) q with
        | some (n, _) => some n
        | none => none

/-- Embeds `_extract_time_period`: only explicit quarter mentions. -/
def extractTimePeriod (q : List Char) : Option Nat :=
  let s : String := ⟨q⟩
  if strContains s ("q1") || strContains s ("first quarter") then some 1
  else if strContains s ("q2") || strContains s ("second quarter") then some 2
  else if strContains s ("q3") || strContains s ("third quarter") then some 3
  else if strContains s ("q4") || strContains s ("fourth quarter") then some 4
  else none

/-- Embeds `_parse_question_intent`: fast path first, then the per-facet
extractors on the lower-cased question. -/
def parseIntent (schema : Schema) (question : String) : QueryPlan :=
  let q := (lowerStr question).data
  match mostFreqIntent schema q with
  | some i => i
  | none =>
    { action := extractAction q,
      filters := extractFilters schema q,
      grouping := extractGrouping schema q,
      aggregation := extractAggregation schema q,
      sorting := extractSorting schema q,
      qlimit := extractLimit q,
      timePeriod := extractTimePeriod q }

/-- Embeds `_generate_query_plan`: `explain_schema` plans are emptied and carry
the schema inline; other intents pass through. -/
def generateQueryPlan (schema : Schema) (intent : QueryPlan) : QueryPlan :=
  if intent.action == "explain_schema" then
    { action := "explain_schema", filters := [], grouping := [], aggregation := [],
      sorting := [], qlimit := none, timePeriod := none, schemaInfo := some schema }
  else
    intent

/-- Python falsiness of a resolved column (`if not filter_cond.get('column')`):
`None` or the empty string. -/
def colFalsy : Option String → Bool
  | none => true
  | some s => s == ""

/-- A braces-free rendering of a filter dictionary, faithful for the
only use the source makes of `str(filter)`: the substring test
`'date' in str(f)` (no dictionary key contains `date`). -/
def filterRepr (f : Filter) : String :=
  (match f.column with | none => "None" | some c => c) ++ " " ++ f.op ++ " " ++
    (match f.value with
     | FilterVal.vnone => "None"
     | FilterVal.vnum q => ratStr q
     | FilterVal.vstr s => s
     | FilterVal.vrel n u => "number: " ++ natStr n ++ ", unit: " ++ u
     | FilterVal.vrange a b => "start: " ++ toString a ++ ", end: " ++ toString b
     | FilterVal.vquarter n => natStr n
     | FilterVal.vstrs vs => String.intercalate ", " vs) ++ " " ++ f.description

/-- The result of `_validate_query_plan`. -/
structure ValidationResult where
  isValid : Bool
  message : String
  clarificationQuestions : List String
  deriving DecidableEq, Repr

/-- Embeds `_validate_query_plan`: one issue and one clarification question per
filter with a falsy column and per falsy grouping entry, plus an optional
time-period question; validity is the absence of issues. -/
def validateQueryPlan (schema : Schema) (plan : QueryPlan) : ValidationResult :=
  let filterIssues := plan.filters.filterMap fun f =>
    if colFalsy f.column then
      some ("Could not identify column for filter: " ++ f.description)
    else none
  let filterQs := plan.filters.filterMap fun f =>
    if colFalsy f.column then
      some ("Which column should I use for " ++ f.description ++ "?")
    else none
  let groupIssues := plan.grouping.filterMap fun g =>
    if g == "" then some ("Could not identify grouping column" : String) else none
  let groupQs := plan.grouping.filterMap fun g =>
    if g == "" then some ("Which column should I group by?" : String) else none
  let dateQs :=
    if ¬ plan.filters.isEmpty ∧ ¬ (plan.filters.any fun f => strContains (filterRepr f) ("date")) then
      match findDateColumn schema with
      | some _ => ["What time period are you interested in? (e.g., last 30 days, Q2 2024)"]
      | none => []
    else []
  let issues := filterIssues ++ groupIssues
  { isValid := issues.isEmpty,
    message := if issues.isEmpty then "Query plan is valid" else String.intercalate "; " issues,
    clarificationQuestions := filterQs ++ groupQs ++ dateQs }

/-- One entry of `_generate_execution_steps`. -/
structure PlanStep where
  step : Nat
  action : String
  descrip : String
  deriving DecidableEq, Repr

/-- Embeds `_generate_execution_steps`. -/
def genExecutionSteps (plan : QueryPlan) : List PlanStep :=
  (if ¬ plan.filters.isEmpty then
    [({ step := 1, action := "filter",
        descrip := "Apply " ++ natStr plan.filters.length ++ " filter(s)" } : PlanStep)]
   else []) ++
  (if ¬ plan.grouping.isEmpty then
    [({ step := 2, action := "group",
        descrip := "Group by " ++ String.intercalate ", " plan.grouping } : PlanStep)]
   else []) ++
  (if ¬ plan.aggregation.isEmpty then
    [({ step := 3, action := "aggregate",
        descrip := "Calculate " ++ String.intercalate ", " (plan.aggregation.map Prod.snd) } : PlanStep)]
   else []) ++
  (if ¬ plan.sorting.isEmpty then
    [({ step := 4, action := "sort",
        descrip := "Sort by " ++ String.intercalate ", " (plan.sorting.map SortCond.column) } : PlanStep)]
   else []) ++
  (if limTruthy plan.qlimit then
    [({ step := 5, action := "limit",
        descrip := "Limit to " ++ natStr (plan.qlimit.getD 0) ++ " results" } : PlanStep)]
   else [])

/-- The `_estimate_result_size` dictionary. -/
structure EstimateSize where
  estimatedRows : Int
  estimatedMb : ℚ
  confid : String
  deriving DecidableEq, Repr

/-- Embeds `_estimate_result_size`: heuristic row-count shrink factors per
filter operator (decimal rounding of the MB figure modelled exactly on
rationals). -/
def estimateResultSize (schema : Schema) (plan : QueryPlan) : EstimateSize :=
  let reduction : ℚ := plan.filters.foldl
    (fun acc f =>
      if f.op == ">" then acc * 0.3
      else if f.op == "<" then acc * 0.3
      else if f.op == "==" then acc * 0.1
      else acc)
    1
  let estRows : Int := Int.floor ((schema.fileInfo.totalRows : ℚ) * reduction)
  { estimatedRows := estRows, estimatedMb := (estRows : ℚ) * 0.001, confid := "medium" }

/-- Embeds `_explain_query_plan`. -/
def explainQueryPlan (plan : QueryPlan) : String :=
  let parts :=
    (if ¬ plan.filters.isEmpty then
      ["Filter by: " ++ String.intercalate ", " (plan.filters.map Filter.description)]
     else []) ++
    (if ¬ plan.grouping.isEmpty then
      ["Group by: " ++ String.intercalate ", " plan.grouping]
     else []) ++
    (if ¬ plan.aggregation.isEmpty then
      ["Calculate: " ++ String.intercalate ", "
        (plan.aggregation.map (fun p => p.2 ++ "(" ++ p.1 ++ ")"))]
     else []) ++
    (if ¬ plan.sorting.isEmpty then
      ["Sort by: " ++ String.intercalate ", "
        (plan.sorting.map (fun sc =>
          sc.column ++ " (" ++ (if sc.ascending then "ascending" else "descending") ++ ")"))]
     else []) ++
    (if limTruthy plan.qlimit then
      ["Limit to " ++ natStr (plan.qlimit.getD 0) ++ " results"]
     else [])
  if parts.isEmpty then "Show all data" else String.intercalate "; " parts

/-- The tagged result of `plan_query`. -/
structure PlanResult where
  status : String
  message : String := ""
  clarificationQuestions : List String := []
  queryPlan : Option QueryPlan := none
  executionSteps : List PlanStep := []
  estimatedResultSize : Option EstimateSize := none
  explanation : String := ""
  deriving DecidableEq, Repr

/-- The plan `plan_query` validates and (on success) returns: generated
from the parsed intent, with the original question attached. -/
def plannedPlan (schema : Schema) (question : String) : QueryPlan :=
  { generateQueryPlan schema (parseIntent schema question) with originalQuestion := question }

/-- Embeds `plan_query`: parse, generate, validate; invalid plans come back as
`ambiguous` with the collected clarification questions. -/
def planQuery (schema : Schema) (question : String) : PlanResult :=
  let plan := plannedPlan schema question
  let v := validateQueryPlan schema plan
  if v.isValid then
    { status := "success", queryPlan := some plan,
      executionSteps := genExecutionSteps plan,
      estimatedResultSize := some (estimateResultSize schema plan),
      explanation := explainQueryPlan plan }
  else
    { status := "ambiguous", message := v.message,
      clarificationQuestions := v.clarificationQuestions }

/-! ## Query executor (`query_executor.py`)

Dates are day numbers; `now` (the wall clock `datetime.now()`) is an
explicit parameter, as is the elapsed time that Python measures.  Pandas
elementwise comparisons are modelled as total Boolean functions where
incomparable pairs and NaN yield `false` (`!=` yields `true` on NaN, as
in pandas). -/

/-- A stable, kernel-computable insertion of `x` into a `le`-sorted
list (used to model the deterministic pandas sorts). -/
def insertSorted {α : Type} (le : α → α → Bool) (x : α) : List α → List α
  | [] => [x]
  | y :: t => if le x y then x :: y :: t else y :: insertSorted le x t

/-- Stable sort by a Boolean `le`. -/
def sortBy {α : Type} (le : α → α → Bool) (l : List α) : List α :=
  l.foldr (insertSorted le) []

/-- Civil date from a day number (standard era-based conversion with
truncating integer division); only `year` and `quarter` are consumed. -/
def civilFromDay (z0 : Int) : Int × Int × Int :=
  let z := z0 + 719468
  let era : Int := (if z ≥ 0 then z else z - 146096) / 146097
  let doe := z - era * 146097
  let yoe := (doe - doe / 1460 + doe / 36524 - doe / 146096) / 365
  let y := yoe + era * 400
  let doy := doe - (365 * yoe + yoe / 4 - yoe / 100)
  let mp := (5 * doy + 2) / 153
  let d := doy - (153 * mp + 2) / 5 + 1
  let m := mp + (if mp < 10 then 3 else -9)
  (y + (if m ≤ 2 then 1 else 0), m, d)

/-- Embeds `Timestamp.dt.year`. -/
def yearOfDay (d : Int) : Int := (civilFromDay d).1

/-- Embeds `Timestamp.dt.quarter`. -/
def quarterOfDay (d : Int) : Int := ((civilFromDay d).2.1 - 1) / 3 + 1

/-- Days per relative-date unit (`_apply_relative_date_filter`; month,
quarter and year are the source's 30/90/365 approximations, the unknown
unit falls back to days). -/
def unitDays (u : String) : Int :=
  if u == "day" then 1
  else if u == "week" then 7
  else if u == "month" then 30
  else if u == "quarter" then 90
  else if u == "year" then 365
  else 1

/-- Elementwise `>` (incomparable or NaN: `false`). -/
def valGt : Value → FilterVal → Bool
  | Value.num a, FilterVal.vnum b => a > b
  | Value.str a, FilterVal.vstr b => b < a
  | _, _ => false

/-- Elementwise `<`. -/
def valLt : Value → FilterVal → Bool
  | Value.num a, FilterVal.vnum b => a < b
  | Value.str a, FilterVal.vstr b => a < b
  | _, _ => false

/-- Elementwise `>=`. -/
def valGe : Value → FilterVal → Bool
  | Value.num a, FilterVal.vnum b => a ≥ b
  | Value.str a, FilterVal.vstr b => ¬ a < b
  | _, _ => false

/-- Elementwise `<=`. -/
def valLe : Value → FilterVal → Bool
  | Value.num a, FilterVal.vnum b => a ≤ b
  | Value.str a, FilterVal.vstr b => ¬ b < a
  | _, _ => false

/-- Elementwise `==` (NaN never equal). -/
def valEq : Value → FilterVal → Bool
  | Value.num a, FilterVal.vnum b => a == b
  | Value.str a, FilterVal.vstr b => a == b
  | _, _ => false

/-- Elementwise `!=` (NaN unequal to everything, as in pandas). -/
def valNe (v : Value) (fv : FilterVal) : Bool :=
  match v with
  | Value.null => true
  | _ => ! valEq v fv

/-- The mask of one filter at one cell (`_apply_filters` operator table
plus the dedicated `_apply_*_filter` helpers). -/
def filterMask (now : Int) (f : Filter) (v : Value) : Bool :=
  if f.op == ">" then valGt v f.value
  else if f.op == "<" then valLt v f.value
  else if f.op == ">=" then valGe v f.value
  else if f.op == "<=" then valLe v f.value
  else if f.op == "==" then valEq v f.value
  else if f.op == "!=" then valNe v f.value
  else if f.op == "in" then
    (match f.value, v with
     | FilterVal.vstrs vs, Value.str s => vs.contains s
     | _, _ => false)
  else if f.op == "contains" then
    (match f.value, v with
     | FilterVal.vstr p, Value.str s => strContains (lowerStr s) (lowerStr p)
     | _, _ => false)
  else if f.op == "overdue" then
    (match v with
     | Value.date d => d < now
     | _ => false)
  else if f.op == "relative_date" then
    (match f.value, v with
     | FilterVal.vrel n u, Value.date d => d ≥ now - (n : Int) * unitDays u
     | _, _ => false)
  else if f.op == "year_range" then
    (match f.value, v with
     | FilterVal.vrange a b, Value.date d => a ≤ yearOfDay d && yearOfDay d ≤ b
     | _, _ => false)
  else if f.op == "quarter" then
    (match f.value, v with
     | FilterVal.vquarter qq, Value.date d => quarterOfDay d == (qq : Int)
     | _, _ => false)
  else false

/-- The operators `_apply_filters` recognizes; anything else logs an
error step and is skipped. -/
def knownOp (op : String) : Bool :=
  ([">", "<", ">=", "<=", "==", "!=", "in", "contains", "overdue",
    "relative_date", "year_range", "quarter"] : List String).contains op

/-- One entry of an execution log. -/
structure LogEntry where
  step : String
  status : String
  message : String
  rowsBefore : Option Nat := none
  rowsAfter : Option Nat := none
  deriving DecidableEq, Repr

/-- The value of column `c` in row `r` of table `df`. -/
def cellAt (df : Table) (c : String) (r : List Value) : Value :=
  r.getD (df.cols.indexOf c) Value.null

/-- All values of column `c` (in row order). -/
def colValues (df : Table) (c : String) : List Value :=
  df.rows.map (cellAt df c)

/-- Apply one filter condition: missing or falsy columns and unknown
operators log an error step and leave the table unchanged. -/
def applyFilterStep (now : Int) (df : Table) (i : Nat) (f : Filter) : Table × LogEntry :=
  match f.column with
  | none =>
    (df, { step := "filter_" ++ natStr (i + 1), status := "error",
           message := "Column 'None' not found" })
  | some c =>
    if ¬ df.cols.contains c then
      (df, { step := "filter_" ++ natStr (i + 1), status := "error",
             message := "Column '" ++ c ++ "' not found" })
    else if ¬ knownOp f.op then
      (df, { step := "filter_" ++ natStr (i + 1), status := "error",
             message := "Unknown operator: " ++ f.op })
    else
      let kept := df.rows.filter (fun r => filterMask now f (cellAt df c r))
      (⟨df.cols, kept⟩,
       { step := "filter_" ++ natStr (i + 1), status := "success",
         message := "Applied " ++ f.description,
         rowsBefore := some df.rows.length, rowsAfter := some kept.length })

/-- The sequential filter loop (`i` the running filter index). -/
def applyFiltersGo (now : Int) (i : Nat) (df : Table) : List Filter → Table × List LogEntry
  | [] => (df, [])
  | f :: rest =>
    ((applyFiltersGo now (i + 1) (applyFilterStep now df i f).1 rest).1,
     (applyFilterStep now df i f).2 ::
       (applyFiltersGo now (i + 1) (applyFilterStep now df i f).1 rest).2)

/-- Embeds `_apply_filters`: sequential application with per-filter logging. -/
def applyFilters (now : Int) (df : Table) (fs : List Filter) : Table × List LogEntry :=
  applyFiltersGo now 0 df fs

/-- Embeds `_apply_time_period_filter` (quarter only).  The source indexes
`result_df[date_column]` and uses the `.dt` accessor with no local
handler, so a date column named by the schema but absent from the table,
or not of datetime dtype, raises out of the stage (`none`). -/
def applyTimePeriodFilter (schema : Schema) (df : Table) (q : Nat) :
    Option (Table × List LogEntry) :=
  match findDateColumn schema with
  | none => some (df, [])
  | some c =>
    if ¬ df.cols.contains c then none
    else if ¬ (colValues df c).all (fun v => match v with
        | Value.date _ => true
        | Value.null => true
        | _ => false) then none
    else
      let kept := df.rows.filter (fun r =>
        match cellAt df c r with
        | Value.date d => quarterOfDay d == (q : Int)
        | _ => false)
      some (⟨df.cols, kept⟩,
        [{ step := "time_period_filter", status := "success",
           message := "Filtered to Q" ++ natStr q,
           rowsBefore := some df.rows.length, rowsAfter := some kept.length }])

/-- Embeds `value_counts` pairs: distinct non-null values (first-appearance
order) with their multiplicities. -/
def valueCountsPairs (vs : List Value) : List (Value × Nat) :=
  let nn := vs.filter (fun v => v ≠ Value.null)
  (dedupKeepFirst nn).map (fun v => (v, nn.countP (fun u => u == v)))

/-- Embeds `value_counts`: pairs sorted by descending count. -/
def valueCountsSorted (vs : List Value) : List (Value × Nat) :=
  sortBy (fun a b => b.2 ≤ a.2) (valueCountsPairs vs)

/-- Constructor rank for the total order on mixed values used to model
the deterministic pandas groupby/sort orders. -/
def valRank : Value → Nat
  | Value.null => 0
  | Value.str _ => 1
  | Value.num _ => 2
  | Value.date _ => 3

/-- A total strict order on values (model of the deterministic pandas
ordering; the exact order of mixed types is never load-bearing). -/
def valLtB (a b : Value) : Bool :=
  match a, b with
  | Value.str x, Value.str y => x < y
  | Value.num x, Value.num y => x < y
  | Value.date x, Value.date y => x < y
  | _, _ => valRank a < valRank b

/-- Lexicographic strict order on group-key tuples. -/
def rowKeyLt : List Value → List Value → Bool
  | [], [] => false
  | [], _ :: _ => true
  | _ :: _, [] => false
  | a :: as', b :: bs' => if a == b then rowKeyLt as' bs' else valLtB a b

/-- The group key of a row. -/
def keyOfRow (df : Table) (gcols : List String) (r : List Value) : List Value :=
  gcols.map (fun c => cellAt df c r)

/-- The sorted distinct group keys (pandas groupby: rows with a null in
any key column are dropped, keys ascending). -/
def groupKeys (df : Table) (gcols : List String) : List (List Value) :=
  sortBy (fun a b => rowKeyLt a b || a == b)
    (dedupKeepFirst
      ((df.rows.map (keyOfRow df gcols)).filter (fun k => ¬ k.contains Value.null)))

/-- The rows of one group. -/
def groupRows (df : Table) (gcols : List String) (key : List Value) : List (List Value) :=
  df.rows.filter (fun r => keyOfRow df gcols r == key)

/-- One aggregation function over a column's values within a group
(`sum`/`mean` over the numeric values, skipping NaN; `count` of
non-nulls; anything else is never produced by the planner). -/
def aggApply (func : String) (vs : List Value) : Value :=
  let nums := vs.filterMap (fun v => match v with | Value.num q => some q | _ => none)
  if func == "sum" then Value.num (nums.foldl (· + ·) 0)
  else if func == "mean" then
    (if nums.isEmpty then Value.null else Value.num ((nums.foldl (· + ·) 0) / nums.length))
  else if func == "count" then
    Value.num ((vs.filter (fun v => v ≠ Value.null)).length : ℚ)
  else Value.null

/-- The `agg_dict` built from the aggregation mapping: the `'*'` key
becomes the literal column name `count` with function `count`. -/
def buildAggDict (aggregation : List (String × String)) : List (String × String) :=
  aggregation.foldl
    (fun acc p => if p.1 == "*" then dictInsert ("count") ("count") acc else dictInsert p.1 p.2 acc)
    []

/-- Embeds `_apply_grouping_aggregation`: the single-column value-counts fast
path, then the general grouped / ungrouped paths.  The general paths go
through `DataFrame.groupby(...).agg(...)`, which raises `KeyError` on a
missing column; the stage-local handler turns that into an error log
entry with the table unchanged. -/
def applyGroupingAggregation (df : Table) (plan : QueryPlan) : Table × List LogEntry :=
  let grouping := plan.grouping
  let aggregation := plan.aggregation
  let fastPath :=
    match grouping with
    | [c] =>
      if ¬ aggregation.isEmpty && alistLookup ("*") aggregation == some ("count") &&
          df.cols.contains c then
        let vc := valueCountsSorted (colValues df c)
        let vc' := if limTruthy plan.qlimit then vc.take (plan.qlimit.getD 0) else vc
        some ((⟨[c, "count"], vc'.map (fun (p : Value × Nat) => [p.1, Value.num (p.2 : ℚ)])⟩ : Table),
          [({ step := "grouping_aggregation", status := "success",
              message := "Top " ++
                natStr (if limTruthy plan.qlimit then plan.qlimit.getD 0 else 5) ++
                " most frequent values for " ++ c,
              rowsAfter := some vc'.length } : LogEntry)])
      else none
    | _ => none
  match fastPath with
  | some r => r
  | none =>
    if ¬ grouping.isEmpty && ¬ aggregation.isEmpty then
      let aggDict := buildAggDict aggregation
      if grouping.all (fun c => df.cols.contains c) &&
          aggDict.all (fun (p : String × String) => df.cols.contains p.1) then
        let keys := groupKeys df grouping
        let rows := keys.map (fun k =>
          k ++ aggDict.map (fun (p : String × String) => aggApply p.2 ((groupRows df grouping k).map (cellAt df p.1))))
        ((⟨grouping ++ aggDict.map Prod.fst, rows⟩ : Table),
         [({ step := "grouping_aggregation", status := "success",
             message := "Grouped by " ++ String.intercalate ", " grouping ++
               " and calculated " ++ String.intercalate ", " (aggregation.map Prod.snd),
             rowsAfter := some rows.length } : LogEntry)])
      else
        (df, [({ step := "grouping_aggregation", status := "error",
                 message := "Error in grouping/aggregation: KeyError" } : LogEntry)])
    else if ¬ aggregation.isEmpty then
      let aggDict := buildAggDict aggregation
      if aggDict.all (fun (p : String × String) => df.cols.contains p.1) then
        ((⟨aggDict.map Prod.fst,
            [aggDict.map (fun (p : String × String) => aggApply p.2 (colValues df p.1))]⟩ : Table),
         [({ step := "aggregation", status := "success",
             message := "Calculated " ++ String.intercalate ", " (aggregation.map Prod.snd),
             rowsAfter := some 1 } : LogEntry)])
      else
        (df, [({ step := "grouping_aggregation", status := "error",
                 message := "Error in grouping/aggregation: KeyError" } : LogEntry)])
    else if ¬ grouping.isEmpty then
      if grouping.all (fun c => df.cols.contains c) then
        let keys := groupKeys df grouping
        let rows := keys.map (fun k =>
          k ++ [Value.num ((groupRows df grouping k).length : ℚ)])
        ((⟨grouping ++ ["count"], rows⟩ : Table),
         [({ step := "grouping", status := "success",
             message := "Grouped by " ++ String.intercalate ", " grouping,
             rowsAfter := some rows.length } : LogEntry)])
      else
        (df, [({ step := "grouping_aggregation", status := "error",
                 message := "Error in grouping/aggregation: KeyError" } : LogEntry)])
    else (df, [])

/-- Row comparison for `sort_values` over several (index, ascending)
pairs. -/
def sortRowLe (pairs : List (Nat × Bool)) (a b : List Value) : Bool :=
  match pairs with
  | [] => true
  | (i, asc) :: rest =>
    let x := a.getD i Value.null
    let y := b.getD i Value.null
    if x == y then sortRowLe rest a b
    else if asc then valLtB x y else valLtB y x

/-- Embeds `_apply_sorting`: keep the sort conditions whose column exists, sort
by them; nothing to sort logs nothing. -/
def applySorting (df : Table) (sorts : List SortCond) : Table × List LogEntry :=
  let present := sorts.filter (fun sc => df.cols.contains sc.column)
  if present.isEmpty then (df, [])
  else
    let pairs := present.map (fun sc => (df.cols.indexOf sc.column, sc.ascending))
    ((⟨df.cols, sortBy (sortRowLe pairs) df.rows⟩ : Table),
     [({ step := "sorting", status := "success",
         message := "Sorted by " ++ String.intercalate ", " (present.map SortCond.column) } : LogEntry)])

/-- Embeds `_apply_limit`: head-truncation. -/
def applyLimit (df : Table) (l : Nat) : Table × List LogEntry :=
  ((⟨df.cols, df.rows.take l⟩ : Table),
   [({ step := "limit", status := "success",
       message := "Limited to " ++ natStr l ++ " results",
       rowsAfter := some (df.rows.take l).length } : LogEntry)])

/-! ### Result assembly and narratives -/

/-- Per-column summary statistics (`_generate_summary_stats` entries). -/
inductive ColStats
  | numericStats (min max mean sum : ℚ)
  | dateColStats (minD maxD : Int) (rangeDays : Int)
  | categorical (uniqueVals : Nat) (topValues : List (Value × Nat))
  deriving DecidableEq, Repr

/-- The summary-statistics dictionary. -/
structure SummaryStats where
  totalRows : Nat
  totalColumns : Nat
  columnStats : List (String × ColStats)
  deriving DecidableEq, Repr

/-- The Execution Result dictionary.  The serialization step of
`_prepare_results` (None for NaN, ISO strings for timestamps, floats for
numerics, `str` fallback) is an injective re-coding and is modelled as
the identity on `Value`, keeping result rows directly comparable to
table rows.  The Python exception branch carries no `data`/`columns`
keys; absent keys are modelled by the empty defaults. -/
structure ExecResult where
  status : String
  message : String := ""
  data : List (List Value) := []
  columns : List String := []
  rowCount : Nat := 0
  executionTime : ℚ := 0
  executionLog : List LogEntry := []
  summaryStats : Option SummaryStats := none
  insights : List String := []
  nlResponse : String := ""
  queryType : String := ""
  schemaExplanation : String := ""
  businessAnalysis : String := ""
  queryPlan : Option QueryPlan := none
  deriving DecidableEq, Repr

/-- The numeric values of a column (NaN skipped). -/
def numsOf (vs : List Value) : List ℚ :=
  vs.filterMap (fun v => match v with | Value.num q => some q | _ => none)

/-- The date values of a column. -/
def datesOf (vs : List Value) : List Int :=
  vs.filterMap (fun v => match v with | Value.date d => some d | _ => none)

/-- Minimum of a nonempty rational list. -/
def ratMin (q : ℚ) (l : List ℚ) : ℚ := l.foldl min q

/-- Maximum of a nonempty rational list. -/
def ratMax (q : ℚ) (l : List ℚ) : ℚ := l.foldl max q

/-- Python `column_analysis.get(col, {})` (exact name match). -/
def alistLookupCI (c : String) : List (String × ColInfo) → Option ColInfo
  | [] => none
  | (k, v) :: t => if k == c then some v else alistLookupCI c t

/-- Embeds `_generate_summary_stats`: per-column stats keyed by the schema's
category; columns whose statistics Python fails to compute (all-NaN
mins, unparseable dates) are skipped by the per-column handler. -/
def genSummaryStats (schema : Schema) (df : Table) : SummaryStats :=
  if df.rows.isEmpty then ⟨0, df.cols.length, []⟩
  else
    ⟨df.rows.length, df.cols.length,
     df.cols.filterMap fun c =>
       match alistLookupCI c schema.columnAnalysis with
       | none => none
       | some info =>
         if info.dataCategory == "numeric" then
           match numsOf (colValues df c) with
           | [] => none
           | q :: rest =>
             some (c, ColStats.numericStats (ratMin q rest) (ratMax q rest)
               (((q :: rest).foldl (· + ·) 0) / (q :: rest).length)
               ((q :: rest).foldl (· + ·) 0))
         else if info.dataCategory == "date" then
           match datesOf (colValues df c) with
           | [] => none
           | d :: rest =>
             some (c, ColStats.dateColStats (rest.foldl min d) (rest.foldl max d)
               (rest.foldl max d - rest.foldl min d))
         else if info.dataCategory == "categorical" then
           let vc := valueCountsSorted (colValues df c)
           some (c, ColStats.categorical
             (dedupKeepFirst (vc.map Prod.snd)).length (vc.take 5))
         else none⟩

/-- Embeds `_generate_insights`: record count for `count` actions, formatted
totals for sum/mean aggregations, and a high-variance flag. -/
def genInsights (schema : Schema) (df : Table) (plan : QueryPlan) : List String :=
  if df.rows.isEmpty then ["No data matches the specified criteria"]
  else
    (if plan.action == "count" then
      ["Found " ++ natStr df.rows.length ++ " records matching the criteria"]
     else []) ++
    (plan.aggregation.filterMap fun p =>
      if df.cols.contains p.1 && (p.2 == "sum" || p.2 == "mean") then
        let vs := colValues df p.1
        let value : Option ℚ :=
          if df.rows.length == 1 then
            match vs.headD Value.null with
            | Value.num q => some q
            | _ => none
          else if vs.all (fun v => match v with
              | Value.num _ => true
              | Value.null => true
              | _ => false) then
            some ((numsOf vs).foldl (· + ·) 0)
          else none
        value.map (fun q => "Total " ++ p.2 ++ " of " ++ p.1 ++ ": " ++ ratStr q)
      else none) ++
    (df.cols.filterMap fun c =>
      match alistLookupCI c schema.columnAnalysis with
      | some info =>
        if info.dataCategory == "numeric" then
          match numsOf (colValues df c) with
          | [] => none
          | q :: rest =>
            if ratMax q rest > (((q :: rest).foldl (· + ·) 0) / (q :: rest).length) * 3 then
              some ("High variance detected in " ++ c ++
                " - some values are significantly above average")
            else none
        else none
      | none => none)

/-- Embeds `_prepare_results` (success shape). -/
def prepareResults (schema : Schema) (elapsed : ℚ) (df : Table) (plan : QueryPlan)
    (log : List LogEntry) : ExecResult :=
  { status := "success",
    data := df.rows,
    columns := df.cols,
    rowCount := df.rows.length,
    executionTime := elapsed,
    executionLog := log,
    summaryStats := some (genSummaryStats schema df),
    insights := genInsights schema df plan,
    queryPlan := some plan }

/-- The standardized full-table-dump error result. -/
def fullTableErr (elapsed : ℚ) : ExecResult :=
  { status := "error",
    message := "Sorry, I am unable to answer your question with the current data. Please try a more specific or different question.",
    data := [], columns := [], rowCount := 0, executionTime := elapsed,
    insights := [],
    nlResponse := "Sorry, I am unable to answer your question with the current data. Please try a more specific or different question." }

/-- The standardized cannot-answer error result (empty and header-echo
guards). -/
def cannotAnswerErr (elapsed : ℚ) : ExecResult :=
  { status := "error",
    message := "Sorry, I am unable to answer this question with the current data.",
    data := [], columns := [], rowCount := 0, executionTime := elapsed,
    insights := [],
    nlResponse := "Sorry, I am unable to answer this question with the current data." }

/-- The top-level exception handler's result (`status`, `message`,
`traceback` only; no timing or data keys). -/
def exceptionErr : ExecResult :=
  { status := "error", message := "Error executing query: KeyError" }

/-- The full-table-dump guard's trigger:
`len(result_df) > 0 and len(result_df) == len(self.df) and
set(result_df.columns) == set(self.df.columns)`. -/
def isFullTable (result df : Table) : Bool :=
  decide (result.rows.length > 0) && result.rows.length == df.rows.length &&
    result.cols.all (fun c => df.cols.contains c) &&
    df.cols.all (fun c => result.cols.contains c)

/-- The header-echo guard: each of the first (up to 5) rows literally
equals the column-header list. -/
def headerEcho (result : Table) : Bool :=
  (List.range (min result.rows.length 5)).all
    (fun i => result.rows.getD i [] == result.cols.map Value.str)

/-- Step 1 of the standard pipeline: filters (`if query_plan.get('filters')`). -/
def stage1 (now : Int) (df : Table) (plan : QueryPlan) : Table × List LogEntry :=
  if ¬ plan.filters.isEmpty then applyFilters now df plan.filters else (df, [])

/-- Step 2: the time-period filter (skipped for a falsy `time_period`);
`none` models the stage's unhandled exception. -/
def stage2 (schema : Schema) (plan : QueryPlan) (df : Table) :
    Option (Table × List LogEntry) :=
  match plan.timePeriod with
  | some q => if q ≠ 0 then applyTimePeriodFilter schema df q else some (df, [])
  | none => some (df, [])

/-- Step 3: grouping/aggregation. -/
def stage3 (plan : QueryPlan) (df : Table) : Table × List LogEntry :=
  if ¬ plan.grouping.isEmpty || ¬ plan.aggregation.isEmpty then
    applyGroupingAggregation df plan
  else (df, [])

/-- Step 4: sorting. -/
def stage4 (plan : QueryPlan) (df : Table) : Table × List LogEntry :=
  if ¬ plan.sorting.isEmpty then applySorting df plan.sorting else (df, [])

/-- Step 5: the row limit (skipped for a falsy limit). -/
def stage5 (plan : QueryPlan) (df : Table) : Table × List LogEntry :=
  match plan.qlimit with
  | some l => if l ≠ 0 then applyLimit df l else (df, [])
  | none => (df, [])

/-- Steps 2-5 of the standard pipeline over the filtered table, with the
accumulated execution log. -/
def runStandardRest (schema : Schema) (plan : QueryPlan) (start : Table × List LogEntry) :
    Option (Table × List LogEntry) :=
  (stage2 schema plan start.1).map fun d2l2 =>
    ((stage5 plan (stage4 plan (stage3 plan d2l2.1).1).1).1,
     start.2 ++ d2l2.2 ++ (stage3 plan d2l2.1).2 ++
       (stage4 plan (stage3 plan d2l2.1).1).2 ++
       (stage5 plan (stage4 plan (stage3 plan d2l2.1).1).1).2)

/-- The standard pipeline (filters, time period, grouping/aggregation,
sorting, limit); `none` models an exception escaping a stage (only the
time-period stage has no local handler). -/
def runStandard (now : Int) (schema : Schema) (df : Table) (plan : QueryPlan) :
    Option (Table × List LogEntry) :=
  runStandardRest schema plan (stage1 now df plan)

/-! ### Narrative paths (`explain_schema` and `business_analysis`) -/

/-- Embeds `_generate_natural_language_response` for schema questions: template
selection by question phrasing and the Navy/DoD keyword set. -/
def genNLSchema (question : String) (tableType : String) (totalRows totalCols : Nat)
    (summary : String) : String :=
  let ql := lowerStr question
  let navy := strContains ql ("navy") || strContains ql ("military") || strContains ql ("dod")
  if strContains ql ("what does") || strContains ql ("what is") then
    if navy then
      if tableType == "BSEG" then
        "This is a **BSEG (Accounting Document Segment)** table containing " ++
          natStr totalRows ++ " individual financial transaction line items. As a Navy professional, you can use this data for Navy procurement tracking, budget execution monitoring, DoD compliance auditing, spending analysis and Navy financial reporting. " ++ summary
      else if tableType == "BKPF" then
        "This is a **BKPF (Accounting Document Header)** table containing " ++
          natStr totalRows ++ " complete accounting documents. For Navy operations, this supports document-level audit trails, approval workflow tracking, financial reporting, budget execution monitoring and transparency initiatives. " ++ summary
      else
        "This is a **" ++ tableType ++ "** table with " ++ natStr totalRows ++
          " records and " ++ natStr totalCols ++ " columns. For Navy and DoD operations, this data supports financial analysis, compliance monitoring, budget tracking and procurement management. " ++ summary
    else
      if tableType == "BSEG" then
        "This is a **BSEG (Accounting Document Segment)** table that contains " ++
          natStr totalRows ++ " individual line items from accounting documents. Each row represents a single financial transaction entry with " ++ natStr totalCols ++ " different data fields. This table is used for detailed financial analysis, transaction tracking, and audit purposes. " ++ summary
      else if tableType == "BKPF" then
        "This is a **BKPF (Accounting Document Header)** table that contains " ++
          natStr totalRows ++ " complete accounting documents. Each row represents a full financial document with " ++ natStr totalCols ++ " different data fields. This table is used for document-level analysis, approval workflows, and compliance reporting. " ++ summary
      else
        "This is a **" ++ tableType ++ "** table containing " ++ natStr totalRows ++
          " records with " ++ natStr totalCols ++ " columns of data. " ++ summary
  else if strContains ql ("explain") || strContains ql ("describe") then
    if navy then
      "Let me explain this " ++ tableType ++ " table for Navy operations: It contains " ++
        natStr totalRows ++ " records with " ++ natStr totalCols ++ " columns. " ++ summary ++
        " You can use this data for Navy financial analysis, DoD compliance reporting, budget execution monitoring, and supporting Navy acquisition processes."
    else
      "Let me explain this " ++ tableType ++ " table: It contains " ++ natStr totalRows ++
        " records with " ++ natStr totalCols ++ " columns. " ++ summary ++
        " You can use this data for financial analysis, reporting, and business intelligence purposes."
  else
    "This " ++ tableType ++ " table has " ++ natStr totalRows ++ " records and " ++
      natStr totalCols ++ " columns. " ++ summary

/-- Embeds `_generate_natural_language_response` for business questions. -/
def genNLBusiness (question : String) (insights : String) : String :=
  let ql := lowerStr question
  let navy := strContains ql ("navy") || strContains ql ("military") || strContains ql ("dod")
  if navy then
    if strContains ql ("overdue") then
      "Based on your Navy-related question about overdue items: " ++ insights ++
        " This analysis helps identify items that need attention for Navy payment processing, vendor management, and cash flow management across Navy commands."
    else if strContains ql ("vendor") then
      "Regarding your Navy vendor-related question: " ++ insights ++
        " This information helps you understand Navy vendor relationships, procurement patterns, and supports Navy acquisition compliance."
    else if strContains ql ("customer") then
      "About your Navy customer inquiry: " ++ insights ++
        " This data provides insights into Navy customer relationships, inter-command transactions, and Navy financial patterns."
    else if strContains ql ("invoice") || strContains ql ("payment") then
      "For your Navy financial question: " ++ insights ++
        " This analysis helps understand Navy payment patterns, budget execution, and financial performance across Navy programs."
    else
      "Here's what I found based on your Navy-related question: " ++ insights ++
        " This information provides valuable insights for Navy decision-making, budget management, and DoD compliance."
  else
    if strContains ql ("overdue") then
      "Based on your question about overdue items, here's what I found: " ++ insights ++
        " This analysis helps identify items that need attention for payment processing and cash flow management."
    else if strContains ql ("vendor") then
      "Regarding your vendor-related question: " ++ insights ++
        " This information can help you understand vendor relationships and payment patterns."
    else if strContains ql ("customer") then
      "About your customer inquiry: " ++ insights ++
        " This data provides insights into customer relationships and transaction patterns."
    else if strContains ql ("invoice") || strContains ql ("payment") then
      "For your financial question: " ++ insights ++
        " This analysis helps understand payment patterns and financial performance."
    else
      "Here's what I found based on your question: " ++ insights ++
        " This information provides valuable business insights for decision-making."

/-- Embeds `_generate_schema_explanation`: the Markdown narrative (structure
and templates translated; Python percentage/locale formatting rendered
plainly). -/
def generateSchemaExplanation (schema : Schema) : String :=
  let tableType := schema.sapTableType
  let header :=
    [ "# 📊 " ++ tableType ++ " Table",
      "**Records:** " ++ natStr schema.fileInfo.totalRows ++ " | **Columns:** " ++
        natStr schema.fileInfo.totalColumns ] ++
    (match schema.reportConfidence with
     | some conf => ["**Confidence:** " ++ ratStr conf]
     | none => []) ++
    (if schema.schemaSummary == "" then [] else ["**Description:** " ++ schema.schemaSummary])
  let colTable :=
    if schema.columnAnalysis.isEmpty then []
    else
      [ "\n## 📋 Key Columns", "| Column | Type | Purpose |", "|--------|------|---------|" ] ++
      ((schema.columnAnalysis.take 10).map fun p =>
        let purpose :=
          if p.2.sapPatterns.isEmpty then p.2.dataCategory ++ " data"
          else String.intercalate ", " p.2.sapPatterns
        "| " ++ p.1 ++ " | " ++ p.2.dataCategory ++ " | " ++ purpose ++ " |")
  let insightsPart :=
    [ "\n## 📈 Data Insights" ] ++
    (if schema.columnAnalysis.isEmpty then []
     else
       [ "- **Numeric columns:** " ++
           natStr (schema.columnAnalysis.filter (fun p => p.2.dataCategory == "numeric")).length ++
           " (for calculations)",
         "- **Date columns:** " ++
           natStr (schema.columnAnalysis.filter (fun p => p.2.dataCategory == "date")).length ++
           " (for time analysis)",
         "- **Categorical columns:** " ++
           natStr (schema.columnAnalysis.filter (fun p => p.2.dataCategory == "categorical")).length ++
           " (for grouping)" ])
  let context :=
    [ "\n## 💼 Business Context" ] ++
    (if tableType == "BSEG" then
      [ "- **Purpose:** Accounting line items",
        "- **Use:** Financial analysis, transaction tracking",
        "- **Key queries:** Show by vendor, analyze payments, find overdue" ]
     else if tableType == "BKPF" then
      [ "- **Purpose:** Accounting document headers",
        "- **Use:** Document analysis, approval workflows",
        "- **Key queries:** Show by type, analyze posting patterns" ]
     else
      [ "- **Purpose:** General SAP data",
        "- **Use:** Data analysis, reporting",
        "- **Key queries:** Explore patterns, generate reports" ])
  let suggestions :=
    [ "\n## 🔍 Try asking:", "- \"Show me all records\"", "- \"Count total transactions\"",
      "- \"Find overdue invoices\"", "- \"Show vendor payments\"" ]
  String.intercalate "\n" (header ++ colTable ++ insightsPart ++ context ++ suggestions)

/-- Embeds `_execute_schema_explanation`. -/
def executeSchemaExplanation (elapsed : ℚ) (schema : Schema) (plan : QueryPlan) : ExecResult :=
  let explanation := generateSchemaExplanation schema
  let nl := genNLSchema plan.originalQuestion schema.sapTableType schema.fileInfo.totalRows
    schema.fileInfo.totalColumns schema.schemaSummary
  { status := "success",
    data := [[Value.str explanation, Value.str nl]],
    columns := ["explanation", "nl_response"],
    rowCount := 1,
    executionTime := elapsed,
    queryType := "explain_schema",
    insights := [nl],
    schemaExplanation := explanation,
    nlResponse := nl }

/-- Embeds `_analyze_overdue_items` (the only wall-clock-dependent analyzer;
the `ZeroDivisionError` on an empty table is caught locally). -/
def analyzeOverdueItems (now : Int) (schema : Schema) (df : Table) : String :=
  match findDateColumn schema with
  | some c =>
    if df.cols.contains c then
      if df.rows.length == 0 then "**Overdue Analysis:** Unable to analyze"
      else
        let overdue := (colValues df c).countP (fun v =>
          match v with
          | Value.date d => decide (d < now)
          | _ => false)
        "**Overdue Analysis:** " ++ natStr overdue ++ "/" ++ natStr df.rows.length ++
          " items overdue (" ++ ratStr ((overdue : ℚ) / df.rows.length * 100) ++ "%)"
    else "**Overdue Analysis:** No date column found"
  | none => "**Overdue Analysis:** No date column found"

/-- Embeds `_analyze_vendor_data` (`nunique` drops nulls). -/
def analyzeVendorData (schema : Schema) (df : Table) : String :=
  match findVendorColumn schema with
  | some c =>
    if df.cols.contains c then
      "**Vendor Analysis:** " ++
        natStr (dedupKeepFirst ((colValues df c).filter (fun v => v ≠ Value.null))).length ++
        " unique vendors found"
    else "**Vendor Analysis:** No vendor data found"
  | none => "**Vendor Analysis:** No vendor data found"

/-- Embeds `_analyze_customer_data`. -/
def analyzeCustomerData (schema : Schema) (df : Table) : String :=
  match findCustomerColumn schema with
  | some c =>
    if df.cols.contains c then
      "**Customer Analysis:** " ++
        natStr (dedupKeepFirst ((colValues df c).filter (fun v => v ≠ Value.null))).length ++
        " unique customers found"
    else "**Customer Analysis:** No customer data found"
  | none => "**Customer Analysis:** No customer data found"

/-- Embeds `_analyze_financial_data` (sum and mean of the amount column; the
mean of an empty column renders as pandas' NaN, modelled as 0). -/
def analyzeFinancialData (schema : Schema) (df : Table) : String :=
  match findAmountColumn schema with
  | some c =>
    if df.cols.contains c then
      let nums := numsOf (colValues df c)
      let total := nums.foldl (· + ·) 0
      let avg : ℚ := if nums.isEmpty then 0 else total / nums.length
      "**Financial Analysis:** Total: $" ++ ratStr total ++ ", Average: $" ++ ratStr avg
    else "**Financial Analysis:** No amount data found"
  | none => "**Financial Analysis:** No amount data found"

/-- Embeds `_generate_general_insights`. -/
def generateGeneralInsights (schema : Schema) (df : Table) : String :=
  let tableType := schema.sapTableType
  "**General Insights:**\n- " ++ natStr df.rows.length ++ " records in " ++ tableType ++
    " table\n" ++
    (if tableType == "BSEG" then
      "- Use for financial transaction analysis\n- Try: 'Show vendor payments' or 'Find overdue invoices'"
     else if tableType == "BKPF" then
      "- Use for document-level analysis\n- Try: 'Show documents by type' or 'Analyze posting patterns'"
     else
      "- Use for general data exploration\n- Try: 'Show all records' or 'Count transactions'")

/-- Embeds `_generate_business_insights`: keyword-triggered findings, general
insights when nothing matches. -/
def generateBusinessInsights (now : Int) (schema : Schema) (df : Table) (ql : String) : String :=
  let parts :=
    (if strContains ql ("overdue") then [analyzeOverdueItems now schema df] else []) ++
    (if strContains ql ("vendor") then [analyzeVendorData schema df] else []) ++
    (if strContains ql ("customer") then [analyzeCustomerData schema df] else []) ++
    (if strContains ql ("invoice") || strContains ql ("payment") then
      [analyzeFinancialData schema df]
     else [])
  if parts.isEmpty then generateGeneralInsights schema df
  else String.intercalate "\n\n" parts

/-- Embeds `_execute_business_analysis`. -/
def executeBusinessAnalysis (elapsed : ℚ) (now : Int) (schema : Schema) (df : Table)
    (plan : QueryPlan) : ExecResult :=
  let ql := lowerStr plan.originalQuestion
  let insights := generateBusinessInsights now schema df ql
  let nl := genNLBusiness plan.originalQuestion insights
  { status := "success",
    data := [[Value.str insights, Value.str nl]],
    columns := ["analysis", "nl_response"],
    rowCount := 1,
    executionTime := elapsed,
    queryType := "business_analysis",
    insights := [nl],
    businessAnalysis := insights,
    nlResponse := nl }

/-- Embeds `_preprocess_dataframe`: best-effort coercion of date/numeric
columns per the schema's categories (failed coercions become NaN; plain
string parsing of dates/numbers is out of the claims' scope and such
cells coerce to null here). -/
def preprocessTable (schema : Schema) (df : Table) : Table :=
  let coerceDate (v : Value) : Value :=
    match v with
    | Value.date d => Value.date d
    | _ => Value.null
  let coerceNum (v : Value) : Value :=
    match v with
    | Value.num q => Value.num q
    | _ => Value.null
  ⟨df.cols,
   df.rows.map fun r =>
     (df.cols.zip r).map fun (c, v) =>
       match alistLookupCI c schema.columnAnalysis with
       | some info =>
         if info.dataCategory == "date" then coerceDate v
         else if info.dataCategory == "numeric" then coerceNum v
         else v
       | none => v⟩

/-- Embeds `execute_query`: dispatch the narrative actions, run the standard
pipeline otherwise, then apply the guard policy in order — full-table
dump, empty result, header echo — each collapsing to a standardized
error result.  `df` is the executor's (already preprocessed) table,
`now` the wall clock, `elapsed` the measured execution time. -/
def executeQuery (elapsed : ℚ) (now : Int) (schema : Schema) (df : Table)
    (plan : QueryPlan) : ExecResult :=
  if plan.action == "explain_schema" then executeSchemaExplanation elapsed schema plan
  else if plan.action == "business_analysis" then
    executeBusinessAnalysis elapsed now schema df plan
  else
    match runStandard now schema df plan with
    | none => exceptionErr
    | some (d5, log) =>
      if isFullTable d5 df then fullTableErr elapsed
      else if d5.rows.length == 0 || d5.cols.length == 0 then cannotAnswerErr elapsed
      else if headerEcho d5 then cannotAnswerErr elapsed
      else prepareResults schema elapsed d5 plan log

/-! ## Spec-side definitions and concrete fixtures -/

/-- The confidence formula as the specification words it:
`0.7 × (required_present/required_total) + 0.3 × (optional_present/optional_total)`
when both lists are non-empty, required-only scoring when the optional
list is empty, optional-only scoring at halved weight when the required
list is empty. -/
def confidenceSpec (columns : List String) (sig : Sig) : ℚ :=
  let requiredPresent : ℚ := (sig.requiredColumns.filter (fun c => columns.contains c)).length
  let optionalPresent : ℚ := (sig.optionalColumns.filter (fun c => columns.contains c)).length
  if sig.requiredColumns ≠ [] ∧ sig.optionalColumns ≠ [] then
    0.7 * (requiredPresent / sig.requiredColumns.length) +
      0.3 * (optionalPresent / sig.optionalColumns.length)
  else if sig.requiredColumns ≠ [] then
    requiredPresent / sig.requiredColumns.length
  else if sig.optionalColumns ≠ [] then
    (optionalPresent / sig.optionalColumns.length) * 0.5
  else 0

/-- An execution result with its elapsed-time field cleared, for
comparing two runs "in every field except the elapsed-time field". -/
def eraseTime (r : ExecResult) : ExecResult := { r with executionTime := 0 }

/-- The sum of the `count` column (position 1) of a value-counts result
table. -/
def countColSum (t : Table) : ℚ :=
  (t.rows.map (fun r =>
    match r.getD 1 Value.null with
    | Value.num q => q
    | _ => 0)).sum

/-- A schema analysis with no analyzed columns. -/
def schemaEmptyA : Schema := ⟨[], ⟨0, 0⟩, "UNKNOWN", "", none⟩

/-- A schema with a posting-date-tagged and a vendor-number-tagged
column (the shape claimed for the vendor-payments scenario). -/
def schemaVendorDate : Schema :=
  ⟨[("BUDAT", ⟨["posting_date"], "date"⟩), ("LIFNR", ⟨["vendor_number"], "categorical"⟩)],
   ⟨10, 2⟩, "BKPF", "", none⟩

/-- A schema with a single posting-date-tagged column. -/
def schemaPostingDate : Schema :=
  ⟨[("BUDAT", ⟨["posting_date"], "date"⟩)], ⟨2, 1⟩, "BKPF", "", none⟩

/-- A two-row table of posting dates (day numbers 100 and 200). -/
def tableTwoDates : Table := ⟨["BUDAT"], [[Value.date 100], [Value.date 200]]⟩

/-- A schema with a single numeric column. -/
def schemaOneNum : Schema := ⟨[("A", ⟨[], "numeric"⟩)], ⟨2, 1⟩, "UNKNOWN", "", none⟩

/-- A two-row numeric table. -/
def tableTwoNums : Table := ⟨["A"], [[Value.num 1], [Value.num 2]]⟩

/-- A plan with one amount filter that keeps exactly one row of
`tableTwoNums`. -/
def planGtOne : QueryPlan :=
  { action := "show", filters := [⟨some "A", ">", FilterVal.vnum 1, "Amount over 1"⟩] }

/-- The plan `plan_query` produces for `show documents from the last 30
days` over `schemaPostingDate`. -/
def planLast30 : QueryPlan :=
  (planQuery schemaPostingDate "show documents from the last 30 days").queryPlan.getD
    { action := "show" }

/-- A schema whose only analyzed column is named `DAYS`: the normalized
name `days` is a substring of the phrase the `top (\d+) ([\w\s]+)` fast
path captures from "top 3 document types in the last 30 days", so
`_find_matching_column` resolves the capture and the fast path fires. -/
def schemaDays : Schema := ⟨[("DAYS", ⟨[], "numeric"⟩)], ⟨5, 1⟩, "UNKNOWN", "", none⟩

/-! ## Helper lemmas -/

theorem insertSorted_perm {α : Type} (le : α → α → Bool) (x : α) (l : List α) :
    List.Perm (insertSorted le x l) (x :: l) := by
  induction l with
  | nil => rfl
  | cons y t ih =>
    simp only [insertSorted]
    by_cases h : le x y = true
    · simp [h]
    · simp only [Bool.not_eq_true] at h
      simp only [h, Bool.false_eq_true, if_false]
      exact (ih.cons y).trans (List.Perm.swap x y t)

theorem sortBy_perm {α : Type} (le : α → α → Bool) (l : List α) :
    List.Perm (sortBy le l) l := by
  induction l with
  | nil => rfl
  | cons x t ih => exact (insertSorted_perm le x (sortBy le t)).trans (ih.cons x)

/-- Plan validity is exactly the absence of falsy filter columns and
falsy grouping entries; in particular it never consults the schema's or
the table's column inventory. -/
theorem validateQueryPlan_isValid_iff (schema : Schema) (plan : QueryPlan) :
    (validateQueryPlan schema plan).isValid = true ↔
      ((∀ f ∈ plan.filters, colFalsy f.column = false) ∧
       (∀ g ∈ plan.grouping, (g == "") = false)) := by
  unfold validateQueryPlan
  simp only [List.isEmpty_iff, List.append_eq_nil, List.filterMap_eq_nil_iff]
  constructor
  · rintro ⟨h1, h2⟩
    refine ⟨fun f hf => ?_, fun g hg => ?_⟩
    · have := h1 f hf
      by_cases hc : colFalsy f.column = true
      · rw [if_pos hc] at this; cases this
      · simpa using hc
    · have := h2 g hg
      by_cases hc : (g == "") = true
      · rw [if_pos hc] at this; cases this
      · simpa using hc
  · rintro ⟨h1, h2⟩
    refine ⟨fun f hf => ?_, fun g hg => ?_⟩
    · rw [h1 f hf]; rfl
    · rw [h2 g hg]; rfl

/-- A plan holding any filter with a falsy column validates as invalid,
with a nonempty clarification-question list. -/
theorem validate_falsy_filter (schema : Schema) (plan : QueryPlan)
    (h : ∃ f ∈ plan.filters, colFalsy f.column = true) :
    (validateQueryPlan schema plan).isValid = false ∧
      (validateQueryPlan schema plan).clarificationQuestions ≠ [] := by
  obtain ⟨f, hf, hcol⟩ := h
  constructor
  · simp only [validateQueryPlan]
    rw [Bool.eq_false_iff]
    intro hempty
    rw [List.isEmpty_iff, List.append_eq_nil, List.filterMap_eq_nil_iff] at hempty
    have := hempty.1 f hf
    rw [if_pos hcol] at this
    cases this
  · simp only [validateQueryPlan]
    intro hq
    rcases List.append_eq_nil.mp hq with ⟨hq1, _⟩
    rcases List.append_eq_nil.mp hq1 with ⟨hq2, _⟩
    rw [List.filterMap_eq_nil_iff] at hq2
    have := hq2 f hf
    rw [if_pos hcol] at this
    cases this

/-- The source's confidence computation agrees with the specification's
formula on every input. -/
theorem calcConfidence_eq_spec (columns : List String) (sig : Sig) :
    calcConfidence columns sig = confidenceSpec columns sig := by
  unfold calcConfidence confidenceSpec
  cases hr : sig.requiredColumns <;> cases ho : sig.optionalColumns
  all_goals simp [List.isEmpty]
  all_goals ring

/-- The selection loop returns either its accumulator untouched (no
later signature qualifies above the running best score) or the leftmost
maximum among the later qualifying signatures scoring above it. -/
theorem identifyGo_spec (cols : List String) (sigs : List Sig) :
    ∀ (best : Option IdentifyResult) (h : ℚ),
      (identifyGo cols sigs best h = best ∧
        ∀ s ∈ sigs, ¬ (calcConfidence cols s ≥ s.threshold ∧ calcConfidence cols s > h)) ∨
      (∃ pre s post, sigs = pre ++ s :: post ∧
        identifyGo cols sigs best h = some (mkBestMatch cols s) ∧
        calcConfidence cols s ≥ s.threshold ∧ calcConfidence cols s > h ∧
        (∀ t ∈ sigs, calcConfidence cols t ≥ t.threshold ∧ calcConfidence cols t > h →
          calcConfidence cols t ≤ calcConfidence cols s) ∧
        (∀ t ∈ pre, ¬ (calcConfidence cols t ≥ t.threshold ∧
          calcConfidence cols t ≥ calcConfidence cols s))) := by
  induction sigs with
  | nil =>
    intro best h
    left
    exact ⟨rfl, by simp⟩
  | cons s rest ih =>
    intro best h
    by_cases hc : calcConfidence cols s ≥ s.threshold ∧ calcConfidence cols s > h
    · have hgo : identifyGo cols (s :: rest) best h =
          identifyGo cols rest (some (mkBestMatch cols s)) (calcConfidence cols s) := by
        simp only [identifyGo]
        rw [if_pos ⟨hc.2, hc.1⟩]
      rcases ih (some (mkBestMatch cols s)) (calcConfidence cols s) with
        ⟨heq, hnone⟩ | ⟨pre, t, post, hsplit, heq, hq, hgt, hdom, hpre⟩
      · right
        refine ⟨[], s, rest, rfl, by rw [hgo, heq], hc.1, hc.2, ?_, by simp⟩
        intro u hu ⟨hu1, _⟩
        rcases List.mem_cons.mp hu with rfl | hu'
        · exact le_refl _
        · have := hnone u hu'
          by_contra hlt
          exact this ⟨hu1, lt_of_not_le hlt⟩
      · right
        refine ⟨s :: pre, t, post, by rw [hsplit]; rfl, by rw [hgo, heq], hq,
          lt_trans hc.2 hgt, ?_, ?_⟩
        · intro u hu ⟨hu1, _⟩
          rcases List.mem_cons.mp hu with rfl | hu'
          · exact le_of_lt hgt
          · by_cases hus : calcConfidence cols u > calcConfidence cols s
            · exact hdom u hu' ⟨hu1, hus⟩
            · exact le_trans (le_of_not_lt hus) (le_of_lt hgt)
        · intro u hu
          rcases List.mem_cons.mp hu with rfl | hu'
          · rintro ⟨_, habs⟩
            exact absurd hgt (not_lt_of_le habs)
          · exact hpre u hu'
    · have hgo : identifyGo cols (s :: rest) best h = identifyGo cols rest best h := by
        simp only [identifyGo]
        rw [if_neg (fun hab => hc ⟨hab.2, hab.1⟩)]
      rcases ih best h with ⟨heq, hnone⟩ | ⟨pre, t, post, hsplit, heq, hq, hgt, hdom, hpre⟩
      · left
        refine ⟨by rw [hgo, heq], fun u hu => ?_⟩
        rcases List.mem_cons.mp hu with rfl | hu'
        · exact hc
        · exact hnone u hu'
      · right
        refine ⟨s :: pre, t, post, by rw [hsplit]; rfl, by rw [hgo, heq], hq, hgt, ?_, ?_⟩
        · intro u hu hu1
          rcases List.mem_cons.mp hu with rfl | hu'
          · exact absurd hu1 hc
          · exact hdom u hu' hu1
        · intro u hu
          rcases List.mem_cons.mp hu with rfl | hu'
          · rintro ⟨hu1, hu2⟩
            exact hc ⟨hu1, lt_of_lt_of_le hgt hu2⟩
          · exact hpre u hu'

/-! ## Claim theorems -/

/-- C4: `identify_report_type` scores every signature by the
0.7/0.3-weighted (or degraded) formula and selects the highest-scoring
signature meeting its own declared threshold, ties broken by first
declaration order in the fixed signature table; when no signature clears
its threshold it returns the `UNKNOWN` sentinel with confidence 0. -/
theorem c4_identify_scoring_and_selection (columns : List String) :
    (∀ sig ∈ tablePatterns,
      calcConfidence (columns.map (fun c => stripStr (upperStr c))) sig =
        confidenceSpec (columns.map (fun c => stripStr (upperStr c))) sig) ∧
    ((identifyReportType columns =
        unknownResult (columns.map (fun c => stripStr (upperStr c))) ∧
      (identifyReportType columns).confidence = 0 ∧
      ∀ s ∈ tablePatterns,
        ¬ (calcConfidence (columns.map (fun c => stripStr (upperStr c))) s ≥ s.threshold)) ∨
     (∃ pre s post, tablePatterns = pre ++ s :: post ∧
        identifyReportType columns =
          mkBestMatch (columns.map (fun c => stripStr (upperStr c))) s ∧
        (identifyReportType columns).confidence =
          calcConfidence (columns.map (fun c => stripStr (upperStr c))) s ∧
        calcConfidence (columns.map (fun c => stripStr (upperStr c))) s ≥ s.threshold ∧
        (∀ t ∈ tablePatterns,
          calcConfidence (columns.map (fun c => stripStr (upperStr c))) t ≥ t.threshold →
            calcConfidence (columns.map (fun c => stripStr (upperStr c))) t ≤
              calcConfidence (columns.map (fun c => stripStr (upperStr c))) s) ∧
        (∀ t ∈ pre,
          calcConfidence (columns.map (fun c => stripStr (upperStr c))) t ≥ t.threshold →
            calcConfidence (columns.map (fun c => stripStr (upperStr c))) t <
              calcConfidence (columns.map (fun c => stripStr (upperStr c))) s))) := by
  set cols := columns.map (fun c => stripStr (upperStr c)) with hcols
  have hpos : ∀ s ∈ tablePatterns, (0 : ℚ) < s.threshold := by
    intro s hs
    fin_cases hs <;> with_unfolding_all decide
  refine ⟨fun sig _ => calcConfidence_eq_spec cols sig, ?_⟩
  have hid : identifyReportType columns =
      match identifyGo cols tablePatterns none 0 with
      | some r => r
      | none => unknownResult cols := rfl
  rcases identifyGo_spec cols tablePatterns none 0 with
    ⟨heq, hnone⟩ | ⟨pre, s, post, hsplit, heq, hq, _, hdom, hpre⟩
  · left
    rw [hid, heq]
    refine ⟨rfl, rfl, fun s hs habs => ?_⟩
    exact hnone s hs ⟨habs, lt_of_lt_of_le (hpos s hs) habs⟩
  · right
    refine ⟨pre, s, post, hsplit, by rw [hid, heq], by rw [hid, heq]; rfl, hq,
      fun t ht hqt => ?_, fun t ht hqt => ?_⟩
    · exact hdom t ht ⟨hqt, lt_of_lt_of_le (hpos t ht) hqt⟩
    · have hmem : t ∈ tablePatterns := by
        rw [hsplit]
        exact List.mem_append_left _ ht
      by_contra hge
      exact hpre t ht ⟨hqt, le_of_not_lt hge⟩

/-- C4 witness: the scoring-formula part of the claim instantiated at
the first signature of the table and a concrete column list. -/
theorem c4_identify_scoring_witness :
    calcConfidence (["LIFNR", "NAME1"].map (fun c => stripStr (upperStr c)))
        (tablePatterns.getD 0 ⟨"", [], [], "", 0⟩) =
      confidenceSpec (["LIFNR", "NAME1"].map (fun c => stripStr (upperStr c)))
        (tablePatterns.getD 0 ⟨"", [], [], "", 0⟩) :=
  (c4_identify_scoring_and_selection ["LIFNR", "NAME1"]).1
    (tablePatterns.getD 0 ⟨"", [], [], "", 0⟩) (by with_unfolding_all decide)

/-- C5 counterexample: on exactly the claimed column set the report
identifier returns `UNKNOWN` with confidence 0, not `BKPF` with
confidence at least 0.8 (BKPF's required-only score 0.7 misses its own
0.8 threshold). -/
theorem c5_counterexample :
    (identifyReportType ["BUKRS", "BELNR", "GJAHR", "BLART", "BUDAT"]).tableType =
        "UNKNOWN" ∧
      (identifyReportType ["BUKRS", "BELNR", "GJAHR", "BLART", "BUDAT"]).confidence = 0 := by
  with_unfolding_all decide

/-- C5 amended: for the column set
`{BUKRS, BELNR, GJAHR, BLART, BUDAT}`, `identify_report_type` scores
BKPF at exactly 0.7 — below BKPF's own 0.8 threshold — and therefore
returns `UNKNOWN` with confidence 0.0; only the schema analyzer's fast
required-subset detector classifies the table as `BKPF` (without any
confidence score). -/
theorem c5_amended :
    (identifyReportType ["BUKRS", "BELNR", "GJAHR", "BLART", "BUDAT"]).tableType =
        "UNKNOWN" ∧
    (identifyReportType ["BUKRS", "BELNR", "GJAHR", "BLART", "BUDAT"]).confidence = 0 ∧
    calcConfidence ["BUKRS", "BELNR", "GJAHR", "BLART", "BUDAT"]
        (tablePatterns.getD 0 ⟨"", [], [], "", 0⟩) = 7 / 10 ∧
    (tablePatterns.getD 0 ⟨"", [], [], "", 0⟩).name = "BKPF" ∧
    (tablePatterns.getD 0 ⟨"", [], [], "", 0⟩).threshold = 8 / 10 ∧
    detectSapTableTypeFast ["BUKRS", "BELNR", "GJAHR", "BLART", "BUDAT"] = "BKPF" := by
  with_unfolding_all decide

/-- C9: plan validation is purely shape-based — validity holds exactly
when every filter column and grouping entry is non-falsy, with no lookup
of the schema's or table's columns; concretely, "what are the most
frequent document types?" resolves `document types` through the synonym
table to `BLART` and `plan_query` succeeds with grouping `[BLART]` even
over a schema that has analyzed no columns at all. -/
theorem c9_validation_shape_only :
    (∀ (schema : Schema) (plan : QueryPlan),
      (validateQueryPlan schema plan).isValid = true ↔
        ((∀ f ∈ plan.filters, colFalsy f.column = false) ∧
         (∀ g ∈ plan.grouping, (g == "") = false))) ∧
    ((planQuery schemaEmptyA "what are the most frequent document types?").status =
        "success" ∧
     ((planQuery schemaEmptyA "what are the most frequent document types?").queryPlan.map
        (fun p => p.grouping)) = some ["BLART"] ∧
     schemaEmptyA.columnAnalysis = []) := by
  refine ⟨validateQueryPlan_isValid_iff, ?_, ?_, rfl⟩
  · with_unfolding_all decide
  · with_unfolding_all decide

/-- C9 witness: the validity equivalence applied to a concrete plan
whose grouping column exists in no schema. -/
theorem c9_validation_witness :
    (validateQueryPlan schemaEmptyA
        ({ action := "show", grouping := ["BLART"] } : QueryPlan)).isValid = true :=
  (c9_validation_shape_only.1 schemaEmptyA
      { action := "show", grouping := ["BLART"] }).mpr (by with_unfolding_all decide)

/-- C1: whenever the extracted plan contains a filter whose column could
not be resolved (null or empty), `plan_query` returns status `ambiguous`
with at least one clarification question — never `success`. -/
theorem c1_null_filter_column_ambiguous (schema : Schema) (question : String)
    (h : ∃ f ∈ (plannedPlan schema question).filters, colFalsy f.column = true) :
    (planQuery schema question).status = "ambiguous" ∧
      (planQuery schema question).clarificationQuestions ≠ [] := by
  have hv := validate_falsy_filter schema (plannedPlan schema question) h
  constructor
  · simp only [planQuery, hv.1, Bool.false_eq_true, if_false]
  · simp only [planQuery, hv.1, Bool.false_eq_true, if_false]
    exact hv.2

/-- C1 witness: "show records over $100" against a schema with no
amount column yields an amount filter with an unresolved column, and
`plan_query` comes back ambiguous with a clarification question. -/
theorem c1_null_filter_witness :
    (∃ f ∈ (plannedPlan schemaEmptyA "show records over $100").filters,
        colFalsy f.column = true) ∧
      (planQuery schemaEmptyA "show records over $100").status = "ambiguous" ∧
      (planQuery schemaEmptyA "show records over $100").clarificationQuestions ≠ [] :=
  ⟨by with_unfolding_all decide,
   c1_null_filter_column_ambiguous schemaEmptyA ("show records over $100")
     (by with_unfolding_all decide)⟩

/-- C7 counterexample: against a schema carrying exactly the claimed
posting-date and vendor-number tags, the question "Show me all vendor
payments for the last quarter" does not plan successfully (the word
`payment` produces a document-type filter with no resolvable column, and
`last quarter`, having no digit, produces no time filter at all). -/
theorem c7_counterexample :
    (planQuery schemaVendorDate "Show me all vendor payments for the last quarter").status ≠
        "success" ∧
      (planQuery schemaVendorDate
        "Show me all vendor payments for the last quarter").status = "ambiguous" := by
  with_unfolding_all decide

/-- C7 amended: for "Show me all vendor payments for the last quarter",
the planner extracts a document-type `PAYMENT` filter (from the word
`payment`) and no quarter or relative-date filter and no time period;
whenever the schema resolves no document-type column — as in the
claimed schema shape — `plan_query` returns `ambiguous` with at least
one clarification question instead of `success`. -/
theorem c7_vendor_quarter_amended (schema : Schema)
    (hdoc : findDocumentTypeColumn schema = none) :
    (planQuery schema "Show me all vendor payments for the last quarter").status =
        "ambiguous" ∧
    (planQuery schema
        "Show me all vendor payments for the last quarter").clarificationQuestions ≠ [] ∧
    (parseIntent schema "Show me all vendor payments for the last quarter").timePeriod =
        none ∧
    (∀ f ∈ (parseIntent schema "Show me all vendor payments for the last quarter").filters,
      f.op ≠ "quarter" ∧ f.op ≠ "relative_date") := by
  have hfilters :
      (plannedPlan schema "Show me all vendor payments for the last quarter").filters =
        [⟨findDocumentTypeColumn schema, "==", FilterVal.vstr ("PAYMENT"),
          "Document type: PAYMENT"⟩] := rfl
  have hfalsy : ∃ f ∈ (plannedPlan schema
      "Show me all vendor payments for the last quarter").filters,
      colFalsy f.column = true := by
    rw [hfilters]
    refine ⟨_, List.mem_cons_self _ _, ?_⟩
    rw [hdoc]
    rfl
  have hv := validate_falsy_filter schema
    (plannedPlan schema "Show me all vendor payments for the last quarter") hfalsy
  refine ⟨?_, ?_, rfl, ?_⟩
  · simp only [planQuery, hv.1, Bool.false_eq_true, if_false]
  · simp only [planQuery, hv.1, Bool.false_eq_true, if_false]
    exact hv.2
  · have hfilters2 :
        (parseIntent schema "Show me all vendor payments for the last quarter").filters =
          [⟨findDocumentTypeColumn schema, "==", FilterVal.vstr ("PAYMENT"),
            "Document type: PAYMENT"⟩] := rfl
    intro f hf
    rw [hfilters2] at hf
    rcases List.mem_cons.mp hf with rfl | habs
    · exact ⟨fun h => ((by with_unfolding_all decide : ("==" : String) ≠ "quarter")) h,
        fun h => ((by with_unfolding_all decide : ("==" : String) ≠ "relative_date")) h⟩
    · cases habs

/-- C7 witness: the amended statement applied at the concrete claimed
schema shape. -/
theorem c7_vendor_quarter_witness :
    (findDocumentTypeColumn schemaVendorDate = none) ∧
      (planQuery schemaVendorDate
        "Show me all vendor payments for the last quarter").status = "ambiguous" :=
  ⟨by with_unfolding_all decide,
   (c7_vendor_quarter_amended schemaVendorDate (by with_unfolding_all decide)).1⟩

/-- A pipeline result identical to the (nonempty) source table triggers
the full-table guard. -/
theorem isFullTable_of_eq (result df : Table) (hr : result.rows = df.rows)
    (hc : result.cols = df.cols) (hne : df.rows ≠ []) : isFullTable result df = true := by
  unfold isFullTable
  rw [hr, hc]
  simp [List.all_eq_true, List.elem_iff, List.length_pos, hne]

/-- Embeds `execute_query` on a standard-pipeline plan whose pipeline raised
(the time-period stage's unhandled indexing) is the top-level exception
result. -/
theorem executeQuery_none (elapsed : ℚ) (now : Int) (schema : Schema) (df : Table)
    (plan : QueryPlan) (ha : plan.action ≠ "explain_schema")
    (hb : plan.action ≠ "business_analysis")
    (h : runStandard now schema df plan = none) :
    executeQuery elapsed now schema df plan = exceptionErr := by
  have hA : (plan.action == "explain_schema") = false := by
    rw [beq_eq_false_iff_ne]
    exact ha
  have hB : (plan.action == "business_analysis") = false := by
    rw [beq_eq_false_iff_ne]
    exact hb
  unfold executeQuery
  simp only [hA, hB, Bool.false_eq_true, if_false]
  rw [h]

/-- Embeds `execute_query` on a standard-pipeline plan: the pipeline output is
run through the three guards in order. -/
theorem executeQuery_some (elapsed : ℚ) (now : Int) (schema : Schema) (df : Table)
    (plan : QueryPlan) (d5 : Table) (log : List LogEntry)
    (ha : plan.action ≠ "explain_schema") (hb : plan.action ≠ "business_analysis")
    (h : runStandard now schema df plan = some (d5, log)) :
    executeQuery elapsed now schema df plan =
      (if isFullTable d5 df then fullTableErr elapsed
       else if d5.rows.length == 0 || d5.cols.length == 0 then cannotAnswerErr elapsed
       else if headerEcho d5 then cannotAnswerErr elapsed
       else prepareResults schema elapsed d5 plan log) := by
  have hA : (plan.action == "explain_schema") = false := by
    rw [beq_eq_false_iff_ne]
    exact ha
  have hB : (plan.action == "business_analysis") = false := by
    rw [beq_eq_false_iff_ne]
    exact hb
  unfold executeQuery
  simp only [hA, hB, Bool.false_eq_true, if_false]
  rw [h]

/-- C2: a standard-pipeline execution never returns a success result
whose rows and columns are identical to the full (unfiltered) executor
table; a pipeline output identical to that table is converted to the
standardized full-table error result with empty data and columns. -/
theorem c2_no_full_table_dump (elapsed : ℚ) (now : Int) (schema : Schema) (df : Table)
    (plan : QueryPlan) (ha : plan.action ≠ "explain_schema")
    (hb : plan.action ≠ "business_analysis") :
    ((executeQuery elapsed now schema df plan).status = "success" →
      ¬ ((executeQuery elapsed now schema df plan).data = df.rows ∧
         (executeQuery elapsed now schema df plan).columns = df.cols)) ∧
    (∀ d5 log, runStandard now schema df plan = some (d5, log) →
      d5.rows = df.rows → d5.cols = df.cols → df.rows ≠ [] →
      executeQuery elapsed now schema df plan = fullTableErr elapsed) := by
  cases hrs : runStandard now schema df plan with
  | none =>
    rw [executeQuery_none elapsed now schema df plan ha hb hrs]
    constructor
    · intro hsucc
      simp [exceptionErr] at hsucc
    · intro d5 log heq
      cases heq
  | some pair =>
    obtain ⟨d5, log⟩ := pair
    rw [executeQuery_some elapsed now schema df plan d5 log ha hb hrs]
    have hsub : ∀ d5' log', some (d5, log) = some (d5', log') → d5' = d5 := by
      intro d5' log' heq
      simp only [Option.some.injEq, Prod.mk.injEq] at heq
      exact heq.1.symm
    by_cases hft : isFullTable d5 df = true
    · rw [if_pos hft]
      constructor
      · intro hsucc
        simp [fullTableErr] at hsucc
      · intro d5' log' _ _ _ _
        rfl
    · rw [if_neg hft]
      by_cases hemp : (d5.rows.length == 0 || d5.cols.length == 0) = true
      · rw [if_pos hemp]
        constructor
        · intro hsucc
          simp [cannotAnswerErr] at hsucc
        · intro d5' log' heq hr hc hne
          have := hsub d5' log' heq
          subst this
          exact absurd (isFullTable_of_eq d5' df hr hc hne) hft
      · rw [if_neg hemp]
        by_cases hech : headerEcho d5 = true
        · rw [if_pos hech]
          constructor
          · intro hsucc
            simp [cannotAnswerErr] at hsucc
          · intro d5' log' heq hr hc hne
            have := hsub d5' log' heq
            subst this
            exact absurd (isFullTable_of_eq d5' df hr hc hne) hft
        · rw [if_neg hech]
          constructor
          · rintro _ ⟨hdata, hcols⟩
            simp only [prepareResults] at hdata hcols
            have hne : df.rows ≠ [] := by
              intro h0
              apply hemp
              rw [hdata, h0]
              rfl
            exact absurd (isFullTable_of_eq d5 df hdata hcols hne) hft
          · intro d5' log' heq hr hc hne
            have := hsub d5' log' heq
            subst this
            exact absurd (isFullTable_of_eq d5' df hr hc hne) hft

/-- C2 witness: a filter that drops one of two rows executes
successfully and the result is not the full input table. -/
theorem c2_no_full_table_witness :
    (planGtOne.action ≠ "explain_schema") ∧ (planGtOne.action ≠ "business_analysis") ∧
      ((executeQuery 0 0 schemaOneNum tableTwoNums planGtOne).status = "success" →
        ¬ ((executeQuery 0 0 schemaOneNum tableTwoNums planGtOne).data = tableTwoNums.rows ∧
           (executeQuery 0 0 schemaOneNum tableTwoNums planGtOne).columns = tableTwoNums.cols)) :=
  ⟨by with_unfolding_all decide, by with_unfolding_all decide,
   (c2_no_full_table_dump 0 0 schemaOneNum tableTwoNums planGtOne
     (by with_unfolding_all decide) (by with_unfolding_all decide)).1⟩

/-- C3: a standard-pipeline execution never returns a success result
with zero rows or zero columns, and every non-success outcome is the
standardized error result with empty data, empty columns and row count
zero. -/
theorem c3_no_empty_success (elapsed : ℚ) (now : Int) (schema : Schema) (df : Table)
    (plan : QueryPlan) (ha : plan.action ≠ "explain_schema")
    (hb : plan.action ≠ "business_analysis") :
    ((executeQuery elapsed now schema df plan).status = "success" →
      (executeQuery elapsed now schema df plan).rowCount ≠ 0 ∧
        (executeQuery elapsed now schema df plan).columns ≠ []) ∧
    ((executeQuery elapsed now schema df plan).status ≠ "success" →
      (executeQuery elapsed now schema df plan).data = [] ∧
        (executeQuery elapsed now schema df plan).columns = [] ∧
        (executeQuery elapsed now schema df plan).rowCount = 0) := by
  cases hrs : runStandard now schema df plan with
  | none =>
    rw [executeQuery_none elapsed now schema df plan ha hb hrs]
    refine ⟨fun hsucc => ?_, fun _ => ⟨rfl, rfl, rfl⟩⟩
    simp [exceptionErr] at hsucc
  | some pair =>
    obtain ⟨d5, log⟩ := pair
    rw [executeQuery_some elapsed now schema df plan d5 log ha hb hrs]
    by_cases hft : isFullTable d5 df = true
    · rw [if_pos hft]
      refine ⟨fun hsucc => ?_, fun _ => ⟨rfl, rfl, rfl⟩⟩
      simp [fullTableErr] at hsucc
    · rw [if_neg hft]
      by_cases hemp : (d5.rows.length == 0 || d5.cols.length == 0) = true
      · rw [if_pos hemp]
        refine ⟨fun hsucc => ?_, fun _ => ⟨rfl, rfl, rfl⟩⟩
        simp [cannotAnswerErr] at hsucc
      · rw [if_neg hemp]
        by_cases hech : headerEcho d5 = true
        · rw [if_pos hech]
          refine ⟨fun hsucc => ?_, fun _ => ⟨rfl, rfl, rfl⟩⟩
          simp [cannotAnswerErr] at hsucc
        · rw [if_neg hech]
          simp only [Bool.or_eq_true, beq_iff_eq, not_or] at hemp
          refine ⟨fun _ => ⟨hemp.1, fun hcnil => ?_⟩, fun hns => absurd rfl hns⟩
          apply hemp.2
          simp only [prepareResults] at hcnil
          rw [hcnil]
          rfl

theorem natCast_list_sum (l : List Nat) :
    (l.map (fun (n : Nat) => (n : ℚ))).sum = (l.sum : ℚ) := by
  induction l with
  | nil => simp
  | cons a t ih =>
    rw [List.map_cons, List.sum_cons, List.sum_cons, Nat.cast_add, ih]

theorem mem_dedupGo {α : Type} [DecidableEq α] :
    ∀ (fuel : Nat) (l : List α) (u : α), u ∈ dedupGo fuel l → u ∈ l := by
  intro fuel
  induction fuel with
  | zero =>
    intro l u hu
    cases l with
    | nil => cases hu
    | cons v t => cases hu
  | succ f ih =>
    intro l u hu
    cases l with
    | nil => cases hu
    | cons v t =>
      simp only [dedupGo, List.mem_cons] at hu
      rcases hu with rfl | hu'
      · exact List.mem_cons_self u t
      · have := ih _ u hu'
        exact List.mem_cons_of_mem v (List.mem_filter.mp this).1

/-- Multiplicities of the distinct elements sum to the list length. -/
theorem dedupGo_countP_sum {α : Type} [DecidableEq α] :
    ∀ (fuel : Nat) (l : List α), l.length ≤ fuel →
      ((dedupGo fuel l).map (fun v => l.countP (fun u => u == v))).sum = l.length := by
  intro fuel
  induction fuel with
  | zero =>
    intro l hl
    cases l with
    | nil => rfl
    | cons v t => simp at hl
  | succ f ih =>
    intro l hl
    cases l with
    | nil => rfl
    | cons v t =>
      simp only [dedupGo, List.map_cons, List.sum_cons]
      have hlt : (t.filter (fun u => u ≠ v)).length ≤ f := by
        have h1 : (t.filter (fun u => u ≠ v)).length ≤ t.length := List.length_filter_le _ t
        have h2 : t.length ≤ f := by
          simpa using hl
        omega
      have h1 : (v :: t).countP (fun u => u == v) = t.countP (fun u => u == v) + 1 :=
        List.countP_cons_of_pos _ _ (by simp)
      have h2 : (dedupGo f (t.filter (fun u => u ≠ v))).map
            (fun w => (v :: t).countP (fun u => u == w)) =
          (dedupGo f (t.filter (fun u => u ≠ v))).map
            (fun w => (t.filter (fun u => u ≠ v)).countP (fun u => u == w)) := by
        apply List.map_congr_left
        intro w hw
        have hwv : w ≠ v := by
          have hmem := mem_dedupGo f _ w hw
          simpa using (List.mem_filter.mp hmem).2
        rw [List.countP_cons_of_neg _ _ (by simp [Ne.symm hwv]), List.countP_filter]
        apply List.countP_congr
        intro a _
        constructor
        · intro hpa
          have : a = w := by simpa using hpa
          subst this
          simp [hwv]
        · intro hpa
          simp only [Bool.and_eq_true] at hpa
          exact hpa.1
      rw [h1, h2, ih _ hlt]
      have h3 : t.countP (fun u => u == v) + (t.filter (fun u => u ≠ v)).length = t.length := by
        rw [← List.countP_eq_length_filter]
        have := List.length_eq_countP_add_countP (p := fun u => u == v) (l := t)
        rw [this]
        congr 1
        apply List.countP_congr
        intro a _
        simp
      simp only [List.length_cons]
      omega

/-- C6 counterexample: the value-counts fast path drops nulls (and would
also truncate to the limit), so the returned counts can sum to less than
the filtered row count: one `x` row and one null row yield a single
count of 1 against 2 surviving rows. -/
theorem c6_counterexample :
    countColSum (applyGroupingAggregation
        (⟨["A"], [[Value.str "x"], [Value.null]]⟩ : Table)
        ({ action := "show", grouping := ["A"],
           aggregation := [("*", "count")] } : QueryPlan)).1 ≠
      ((⟨["A"], [[Value.str "x"], [Value.null]]⟩ : Table).rows.length : ℚ) := by
  with_unfolding_all decide

/-- C6 amended: on the value-counts fast path the returned counts sum to
the number of surviving rows whose grouping value is non-null, provided
the plan's limit (when set and nonzero) is at least the number of
distinct non-null values; with nulls present or a smaller limit the sum
falls short of the filtered row count. -/
theorem c6_value_counts_sum (df : Table) (plan : QueryPlan) (c : String)
    (hg : plan.grouping = [c])
    (ha : alistLookup ("*") plan.aggregation = some ("count"))
    (hc : df.cols.contains c = true)
    (hlim : ∀ l, plan.qlimit = some l → l ≠ 0 →
      (valueCountsPairs (colValues df c)).length ≤ l) :
    countColSum (applyGroupingAggregation df plan).1 =
      (((colValues df c).filter (fun v => v ≠ Value.null)).length : ℚ) := by
  have hane : plan.aggregation.isEmpty = false := by
    cases hagg : plan.aggregation with
    | nil => rw [hagg] at ha; cases ha
    | cons p t => rfl
  have hfast : (applyGroupingAggregation df plan).1 =
      (⟨[c, "count"],
        (if limTruthy plan.qlimit then
          (valueCountsSorted (colValues df c)).take (plan.qlimit.getD 0)
         else valueCountsSorted (colValues df c)).map
          (fun (p : Value × Nat) => [p.1, Value.num (p.2 : ℚ)])⟩ : Table) := by
    unfold applyGroupingAggregation
    rw [hg]
    simp only [hane, Bool.not_false, Bool.true_and, ha, hc, Bool.and_true]
    rw [if_pos (by simp)]
  rw [hfast]
  set vc := valueCountsSorted (colValues df c) with hvc
  have hvc' : (if limTruthy plan.qlimit then vc.take (plan.qlimit.getD 0) else vc) = vc := by
    cases hql : plan.qlimit with
    | none => rfl
    | some l =>
      by_cases hl0 : l = 0
      · subst hl0
        rfl
      · have hlen : vc.length ≤ l := by
          have hperm := sortBy_perm (fun (a b : Value × Nat) => decide (b.2 ≤ a.2))
            (valueCountsPairs (colValues df c))
          rw [hvc]
          unfold valueCountsSorted
          rw [hperm.length_eq]
          exact hlim l hql hl0
        simp only [limTruthy, hql, Option.getD_some]
        rw [if_pos (by simpa using hl0)]
        exact List.take_of_length_le hlen
  rw [hvc']
  unfold countColSum
  have hmap : (vc.map (fun (p : Value × Nat) => [p.1, Value.num (p.2 : ℚ)])).map
      (fun r => match r.getD 1 Value.null with
        | Value.num q => q
        | _ => 0) = vc.map (fun (p : Value × Nat) => ((p.2 : ℚ))) := by
    rw [List.map_map]
    apply List.map_congr_left
    intro p _
    rfl
  simp only [hmap]
  have hperm : List.Perm (vc.map (fun (p : Value × Nat) => ((p.2 : ℚ))))
      ((valueCountsPairs (colValues df c)).map (fun (p : Value × Nat) => ((p.2 : ℚ)))) := by
    exact (sortBy_perm _ _).map _
  rw [hperm.sum_eq]
  unfold valueCountsPairs dedupKeepFirst
  rw [List.map_map]
  have hsum := dedupGo_countP_sum
    (((colValues df c).filter (fun v => v ≠ Value.null)).length)
    ((colValues df c).filter (fun v => v ≠ Value.null)) (le_refl _)
  have hcast := natCast_list_sum
  have hcomp : (dedupGo (((colValues df c).filter (fun v => v ≠ Value.null)).length)
        ((colValues df c).filter (fun v => v ≠ Value.null))).map
        ((fun (p : Value × Nat) => ((p.2 : ℚ))) ∘
          (fun v => (v, ((colValues df c).filter (fun u => u ≠ Value.null)).countP
            (fun u => u == v)))) =
      ((dedupGo (((colValues df c).filter (fun v => v ≠ Value.null)).length)
        ((colValues df c).filter (fun v => v ≠ Value.null))).map
        (fun v => ((colValues df c).filter (fun u => u ≠ Value.null)).countP
          (fun u => u == v))).map (fun (n : Nat) => (n : ℚ)) := by
    rw [List.map_map]
    rfl
  rw [hcomp, hcast, hsum]

/-- C6 witness: a three-row column with two distinct non-null values and
limit 5 sums to exactly the surviving row count. -/
theorem c6_value_counts_witness :
    countColSum (applyGroupingAggregation
        (⟨["A"], [[Value.str "x"], [Value.str "x"], [Value.str "y"]]⟩ : Table)
        ({ action := "show", grouping := ["A"], aggregation := [("*", "count")],
           qlimit := some 5 } : QueryPlan)).1 =
      ((((⟨["A"], [[Value.str "x"], [Value.str "x"], [Value.str "y"]]⟩ : Table).rows.map
        (cellAt (⟨["A"], [[Value.str "x"], [Value.str "x"], [Value.str "y"]]⟩ : Table) "A")).filter
          (fun v => v ≠ Value.null)).length : ℚ) :=
  c6_value_counts_sum
    (⟨["A"], [[Value.str "x"], [Value.str "x"], [Value.str "y"]]⟩ : Table)
    ({ action := "show", grouping := ["A"], aggregation := [("*", "count")],
       qlimit := some 5 } : QueryPlan) ("A")
    rfl rfl (by with_unfolding_all decide)
    (by
      intro l hl hl0
      have h5 : (some (5 : Nat)) = some l := hl
      injection h5 with h
      subst h
      with_unfolding_all decide)

/-- A filter whose operator is neither `overdue` nor `relative_date`
masks cells independently of the wall clock. -/
theorem filterMask_now_indep (f : Filter) (h1 : f.op ≠ "overdue")
    (h2 : f.op ≠ "relative_date") (n1 n2 : Int) (v : Value) :
    filterMask n1 f v = filterMask n2 f v := by
  have hb1 : (f.op == "overdue") = false := by
    rw [beq_eq_false_iff_ne]
    exact h1
  have hb2 : (f.op == "relative_date") = false := by
    rw [beq_eq_false_iff_ne]
    exact h2
  unfold filterMask
  simp only [hb1, hb2, Bool.false_eq_true, if_false]

/-- One filter application step is clock-independent for non-temporal
operators. -/
theorem applyFilterStep_now_indep (f : Filter) (h1 : f.op ≠ "overdue")
    (h2 : f.op ≠ "relative_date") (n1 n2 : Int) (df : Table) (i : Nat) :
    applyFilterStep n1 df i f = applyFilterStep n2 df i f := by
  unfold applyFilterStep
  cases f.column with
  | none => rfl
  | some c =>
    have hmask : filterMask n1 f = filterMask n2 f :=
      funext (filterMask_now_indep f h1 h2 n1 n2)
    rw [hmask]

/-- The whole filter stage is clock-independent when no filter carries a
temporal operator. -/
theorem applyFiltersGo_now_indep (n1 n2 : Int) :
    ∀ (fs : List Filter) (i : Nat) (df : Table),
      (∀ f ∈ fs, f.op ≠ "overdue" ∧ f.op ≠ "relative_date") →
      applyFiltersGo n1 i df fs = applyFiltersGo n2 i df fs := by
  intro fs
  induction fs with
  | nil =>
    intro i df _
    rfl
  | cons f rest ih =>
    intro i df h
    have hf := h f (List.mem_cons_self f rest)
    have hstep := applyFilterStep_now_indep f hf.1 hf.2 n1 n2 df i
    simp only [applyFiltersGo]
    rw [hstep, ih (i + 1) (applyFilterStep n2 df i f).1
      (fun g hg => h g (List.mem_cons_of_mem f hg))]

/-- The standard pipeline is clock-independent when the plan carries no
temporal filter operator. -/
theorem runStandard_now_indep (n1 n2 : Int) (schema : Schema) (df : Table)
    (plan : QueryPlan)
    (hf : ∀ f ∈ plan.filters, f.op ≠ "overdue" ∧ f.op ≠ "relative_date") :
    runStandard n1 schema df plan = runStandard n2 schema df plan := by
  unfold runStandard
  have h1 : stage1 n1 df plan = stage1 n2 df plan := by
    unfold stage1 applyFilters
    split_ifs with h
    · rfl
    · exact applyFiltersGo_now_indep n1 n2 plan.filters 0 df hf
  rw [h1]

/-- A fast-path (`most_freq_patterns`) intent always carries the `show`
action: every pattern entry builds its plan with `action := "show"`. -/
theorem mostFreqIntent_action (schema : Schema) (q : List Char) (i : QueryPlan)
    (h : mostFreqIntent schema q = some i) : i.action = "show" := by
  unfold mostFreqIntent at h
  obtain ⟨m, _, hf⟩ := List.exists_of_findSome?_eq_some h
  cases m with
  | none => cases hf
  | some pr =>
    obtain ⟨n, cap⟩ := pr
    simp only [Option.some_bind] at hf
    cases hcol : findMatchingColumn schema ⟨cap⟩ with
    | none =>
      rw [hcol] at hf
      cases hf
    | some col =>
      rw [hcol] at hf
      simp only [Option.map_some'] at hf
      injection hf with h2
      rw [← h2]

/-- A planned plan whose action is `business_analysis` came through the
slow path of `_parse_question_intent` (the fast path only emits `show`,
`_generate_query_plan` only rewrites `explain_schema`), so its filters
are exactly the extracted filters of the lower-cased question. -/
theorem plannedPlan_business_filters (schema : Schema) (question : String)
    (h : (plannedPlan schema question).action = "business_analysis") :
    (plannedPlan schema question).filters =
      extractFilters schema (lowerStr question).data := by
  have e1 : (plannedPlan schema question).action =
      (generateQueryPlan schema (parseIntent schema question)).action := rfl
  have e2 : (plannedPlan schema question).filters =
      (generateQueryPlan schema (parseIntent schema question)).filters := rfl
  rw [e1] at h
  rw [e2]
  cases hmf : mostFreqIntent schema (lowerStr question).data with
  | some i =>
    have hpi : parseIntent schema question = i := by
      simp only [parseIntent]
      rw [hmf]
    have hshow := mostFreqIntent_action schema (lowerStr question).data i hmf
    have hgen : generateQueryPlan schema (parseIntent schema question) = i := by
      unfold generateQueryPlan
      rw [hpi, hshow]
      exact if_neg (by with_unfolding_all decide)
    rw [hgen, hshow] at h
    exact absurd h (by with_unfolding_all decide)
  | none =>
    have hact : (parseIntent schema question).action =
        extractAction (lowerStr question).data := by
      simp only [parseIntent]
      rw [hmf]
    have hfil : (parseIntent schema question).filters =
        extractFilters schema (lowerStr question).data := by
      simp only [parseIntent]
      rw [hmf]
    cases hA : (extractAction (lowerStr question).data == "explain_schema") with
    | true =>
      have hA' : ((parseIntent schema question).action == "explain_schema") = true := by
        rw [hact]
        exact hA
      have hgen : (generateQueryPlan schema (parseIntent schema question)).action =
          "explain_schema" := by
        unfold generateQueryPlan
        rw [hA']
        rfl
      rw [hgen] at h
      exact absurd h (by with_unfolding_all decide)
    | false =>
      have hA' : ((parseIntent schema question).action == "explain_schema") = false := by
        rw [hact]
        exact hA
      have hgen : generateQueryPlan schema (parseIntent schema question) =
          parseIntent schema question := by
        unfold generateQueryPlan
        rw [hA']
        rfl
      rw [hgen]
      exact hfil

/-- Whenever the (lower-cased) question contains `overdue`,
`_extract_filters` appends the overdue filter, unconditionally. -/
theorem extractFilters_overdue (schema : Schema) (q : List Char)
    (hc : strContains ⟨q⟩ ("overdue") = true) :
    ({ column := findDateColumn schema, op := "overdue", value := FilterVal.vnone,
       description := "Overdue items" } : Filter) ∈ extractFilters schema q := by
  simp only [extractFilters]
  apply List.mem_append_right
  rw [hc]
  simp

/-- A planned `business_analysis` plan none of whose filters is an
overdue filter can only come from a question that does not contain
`overdue` — the word would have forced the filter in. -/
theorem plannedPlan_business_no_overdue (schema : Schema) (question : String)
    (hact : (plannedPlan schema question).action = "business_analysis")
    (hf : ∀ f ∈ (plannedPlan schema question).filters, f.op ≠ "overdue") :
    strContains (lowerStr question) ("overdue") = false := by
  cases hc : strContains (lowerStr question) ("overdue") with
  | false => rfl
  | true =>
    have hfe := plannedPlan_business_filters schema question hact
    have hov := extractFilters_overdue schema (lowerStr question).data hc
    rw [← hfe] at hov
    exact absurd rfl (hf _ hov)

/-- The business-insight generator consults the wall clock only through
the overdue analyzer, which a question without `overdue` never reaches. -/
theorem generateBusinessInsights_now_indep (n1 n2 : Int) (schema : Schema) (df : Table)
    (ql : String) (h : strContains ql ("overdue") = false) :
    generateBusinessInsights n1 schema df ql = generateBusinessInsights n2 schema df ql := by
  simp only [generateBusinessInsights, h, Bool.false_eq_true, if_false]

/-- The business-analysis route is clock-independent (up to the elapsed
time) whenever the question does not contain `overdue`. -/
theorem executeBusinessAnalysis_now_indep (e1 e2 : ℚ) (n1 n2 : Int) (schema : Schema)
    (df : Table) (plan : QueryPlan)
    (h : strContains (lowerStr plan.originalQuestion) ("overdue") = false) :
    eraseTime (executeBusinessAnalysis e1 n1 schema df plan) =
      eraseTime (executeBusinessAnalysis e2 n2 schema df plan) := by
  simp only [executeBusinessAnalysis, eraseTime]
  rw [generateBusinessInsights_now_indep n1 n2 schema df (lowerStr plan.originalQuestion) h]

/-- C8 counterexample: the same (question, table, schema) triple run
through `plan_query` and `execute_query` at two different wall-clock
instants — same measured elapsed time — differs in its status and data
fields, because the plan's relative-date filter is evaluated against the
clock: at day 210 one of the two rows survives (success), at day 310
none does and the guard substitutes the standardized error. -/
theorem c8_counterexample :
    (executeQuery 0 210 schemaPostingDate tableTwoDates planLast30).status = "success" ∧
      (executeQuery 0 310 schemaPostingDate tableTwoDates planLast30).status = "error" := by
  with_unfolding_all decide

/-- C8 amended: a plan returned by `plan_query` executes identically at
two elapsed times and two wall-clock readings — every field except the
elapsed-time field — provided its filters carry no wall-clock-dependent
operator (`overdue`/`relative_date`).  This covers the
schema-explanation route (never clock-dependent) and the
business-analysis route, whose only clock use (the overdue analyzer)
requires `overdue` in the question, which always places an overdue
filter in the plan; plans with a temporal filter can differ in more
than the elapsed time when the clock crosses a row's date. -/
theorem c8_two_run_determinism (e1 e2 : ℚ) (n1 n2 : Int) (schema : Schema) (df : Table)
    (question : String) (p : QueryPlan)
    (hp : (planQuery schema question).queryPlan = some p)
    (hf : ∀ f ∈ p.filters, f.op ≠ "overdue" ∧ f.op ≠ "relative_date") :
    eraseTime (executeQuery e1 n1 schema df p) =
      eraseTime (executeQuery e2 n2 schema df p) := by
  have hpp : p = plannedPlan schema question := by
    simp only [planQuery] at hp
    split_ifs at hp
    exact (Option.some.inj hp).symm
  subst hpp
  cases hA : ((plannedPlan schema question).action == "explain_schema") with
  | true =>
    have h1 : executeQuery e1 n1 schema df (plannedPlan schema question) =
        executeSchemaExplanation e1 schema (plannedPlan schema question) := by
      unfold executeQuery
      rw [hA]
      rfl
    have h2 : executeQuery e2 n2 schema df (plannedPlan schema question) =
        executeSchemaExplanation e2 schema (plannedPlan schema question) := by
      unfold executeQuery
      rw [hA]
      rfl
    rw [h1, h2]
    rfl
  | false =>
    cases hB : ((plannedPlan schema question).action == "business_analysis") with
    | true =>
      have h1 : executeQuery e1 n1 schema df (plannedPlan schema question) =
          executeBusinessAnalysis e1 n1 schema df (plannedPlan schema question) := by
        unfold executeQuery
        rw [hA, hB]
        rfl
      have h2 : executeQuery e2 n2 schema df (plannedPlan schema question) =
          executeBusinessAnalysis e2 n2 schema df (plannedPlan schema question) := by
        unfold executeQuery
        rw [hA, hB]
        rfl
      rw [h1, h2]
      apply executeBusinessAnalysis_now_indep
      show strContains (lowerStr question) ("overdue") = false
      exact plannedPlan_business_no_overdue schema question (eq_of_beq hB)
        (fun f hm => (hf f hm).1)
    | false =>
      have ha : (plannedPlan schema question).action ≠ "explain_schema" :=
        beq_eq_false_iff_ne.mp hA
      have hb : (plannedPlan schema question).action ≠ "business_analysis" :=
        beq_eq_false_iff_ne.mp hB
      have hrun := runStandard_now_indep n1 n2 schema df (plannedPlan schema question) hf
      cases hrs : runStandard n2 schema df (plannedPlan schema question) with
      | none =>
        rw [executeQuery_none e1 n1 schema df (plannedPlan schema question) ha hb
            (hrun.trans hrs),
          executeQuery_none e2 n2 schema df (plannedPlan schema question) ha hb hrs]
      | some pair =>
        obtain ⟨d5, log⟩ := pair
        rw [executeQuery_some e1 n1 schema df (plannedPlan schema question) d5 log ha hb
            (hrun.trans hrs),
          executeQuery_some e2 n2 schema df (plannedPlan schema question) d5 log ha hb hrs]
        split_ifs <;> rfl

/-- C8 witness: the amended determinism applied to a planned
business-analysis question (no overdue/relative-date filter) at two
elapsed times and two clock readings. -/
theorem c8_two_run_witness :
    ((planQuery schemaOneNum ("analyze the vendor data in this file")).queryPlan =
        some (plannedPlan schemaOneNum ("analyze the vendor data in this file"))) ∧
      ((plannedPlan schemaOneNum ("analyze the vendor data in this file")).action =
        "business_analysis") ∧
      (∀ f ∈ (plannedPlan schemaOneNum ("analyze the vendor data in this file")).filters,
        f.op ≠ "overdue" ∧ f.op ≠ "relative_date") ∧
      eraseTime (executeQuery 1 5 schemaOneNum tableTwoNums
          (plannedPlan schemaOneNum ("analyze the vendor data in this file"))) =
        eraseTime (executeQuery 2 99 schemaOneNum tableTwoNums
          (plannedPlan schemaOneNum ("analyze the vendor data in this file"))) :=
  ⟨by with_unfolding_all decide, by with_unfolding_all decide,
   by with_unfolding_all decide,
   c8_two_run_determinism 1 2 5 99 schemaOneNum tableTwoNums
     ("analyze the vendor data in this file")
     (plannedPlan schemaOneNum ("analyze the vendor data in this file"))
     (by with_unfolding_all decide) (by with_unfolding_all decide)⟩

/-- The limit stage caps the row count at a nonzero limit. -/
theorem stage5_rows_le (plan : QueryPlan) (d : Table) (l : Nat)
    (hql : plan.qlimit = some l) (hl0 : l ≠ 0) : (stage5 plan d).1.rows.length ≤ l := by
  unfold stage5
  rw [hql]
  show (if l ≠ 0 then applyLimit d l else (d, [])).1.rows.length ≤ l
  rw [if_pos hl0]
  unfold applyLimit
  simp [min_le_left]

/-- A successful standard pipeline run under a nonzero limit yields at
most that many rows. -/
theorem runStandard_rows_le (now : Int) (schema : Schema) (df : Table) (plan : QueryPlan)
    (d5 : Table) (log : List LogEntry) (l : Nat) (hql : plan.qlimit = some l)
    (hl0 : l ≠ 0) (h : runStandard now schema df plan = some (d5, log)) :
    d5.rows.length ≤ l := by
  unfold runStandard runStandardRest at h
  cases h2 : stage2 schema plan (stage1 now df plan).1 with
  | none =>
    rw [h2] at h
    cases h
  | some d2l2 =>
    rw [h2] at h
    simp only [Option.map_some'] at h
    have hd5 : d5 = (stage5 plan (stage4 plan (stage3 plan d2l2.1).1).1).1 :=
      (congrArg Prod.fst (Option.some.inj h)).symm
    rw [hd5]
    exact stage5_rows_le plan _ l hql hl0

/-- A successful standard-pipeline execution under a nonzero plan limit
returns at most that many rows. -/
theorem executeQuery_rowCount_le (elapsed : ℚ) (now : Int) (schema : Schema) (df : Table)
    (plan : QueryPlan) (l : Nat) (ha : plan.action ≠ "explain_schema")
    (hb : plan.action ≠ "business_analysis") (hql : plan.qlimit = some l) (hl0 : l ≠ 0)
    (hs : (executeQuery elapsed now schema df plan).status = "success") :
    (executeQuery elapsed now schema df plan).rowCount ≤ l := by
  cases hrs : runStandard now schema df plan with
  | none =>
    rw [executeQuery_none elapsed now schema df plan ha hb hrs] at hs
    simp [exceptionErr] at hs
  | some pair =>
    obtain ⟨d5, log⟩ := pair
    rw [executeQuery_some elapsed now schema df plan d5 log ha hb hrs] at hs ⊢
    split_ifs at hs ⊢
    · simp [fullTableErr] at hs
    · simp [cannotAnswerErr] at hs
    · simp [cannotAnswerErr] at hs
    · simp only [prepareResults]
      exact runStandard_rows_le now schema df plan d5 log l hql hl0 hrs

/-- C10 counterexample: a question containing `last 30 days` that also
matches the earlier-priority `first (\d+)` limit pattern gets row limit
5, not 30, while still carrying the 30-day relative-date filter. -/
theorem c10_counterexample :
    (parseIntent schemaPostingDate "show first 5 documents from the last 30 days").action =
        "show" ∧
    (parseIntent schemaPostingDate "show first 5 documents from the last 30 days").filters =
      [⟨some ("BUDAT"), "relative_date", FilterVal.vrel 30 ("day"), "Last 30 days"⟩] ∧
    (parseIntent schemaPostingDate
        "show first 5 documents from the last 30 days").qlimit = some 5 := by
  with_unfolding_all decide

/-- C10 amended: for the representative slow-path question, the `last N
<unit>` phrase yields both a relative-date filter over N units and —
because the `last (\d+)` limit pattern matches the same phrase — a row
limit of the same N: "show documents from the last 30 days" parses
(under every schema) to a data-retrieval plan with a 30-day
relative-date filter and limit 30, and when the schema resolves a
(nonempty-named) date column the plan succeeds and every successful
execution of it returns at most 30 rows.  The coupling is not universal
over `last N <unit>` questions: beyond the earlier-priority `first M`
limit phrase (the counterexample), a most-frequent fast-path question
such as "top 3 document types in the last 30 days" — whose captured
phrase resolves against `schemaDays` — skips filter extraction
entirely, getting limit 3 and no relative-date filter. -/
theorem c10_last_n_coupling (schema : Schema) :
    (parseIntent schema "show documents from the last 30 days").action = "show" ∧
    (parseIntent schema "show documents from the last 30 days").filters =
      [⟨findDateColumn schema, "relative_date", FilterVal.vrel 30 ("day"), "Last 30 days"⟩] ∧
    (parseIntent schema "show documents from the last 30 days").qlimit = some 30 ∧
    (∀ dc, findDateColumn schema = some dc → dc ≠ "" →
      (planQuery schema "show documents from the last 30 days").status = "success" ∧
      (∀ (e : ℚ) (now : Int) (df : Table) (p : QueryPlan),
        (planQuery schema "show documents from the last 30 days").queryPlan = some p →
        (executeQuery e now schema df p).status = "success" →
        (executeQuery e now schema df p).rowCount ≤ 30)) ∧
    (parseIntent schemaDays "top 3 document types in the last 30 days").filters = [] ∧
    (parseIntent schemaDays "top 3 document types in the last 30 days").qlimit = some 3 := by
  refine ⟨rfl, rfl, rfl, ?_, by with_unfolding_all decide, by with_unfolding_all decide⟩
  intro dc hdc hne
  have hfilters : (plannedPlan schema "show documents from the last 30 days").filters =
      [⟨findDateColumn schema, "relative_date", FilterVal.vrel 30 ("day"),
        "Last 30 days"⟩] := rfl
  have hvalid : (validateQueryPlan schema
      (plannedPlan schema "show documents from the last 30 days")).isValid = true := by
    apply (validateQueryPlan_isValid_iff schema _).mpr
    constructor
    · intro f hf
      rw [hfilters] at hf
      rcases List.mem_cons.mp hf with rfl | habs
      · show colFalsy (findDateColumn schema) = false
        rw [hdc]
        show (dc == "") = false
        rw [beq_eq_false_iff_ne]
        exact hne
      · cases habs
    · intro g hg
      have hgr : (plannedPlan schema "show documents from the last 30 days").grouping =
          [] := rfl
      rw [hgr] at hg
      cases hg
  constructor
  · simp only [planQuery, hvalid, if_true]
  · intro e now df p hp hs
    have hp' : p = plannedPlan schema "show documents from the last 30 days" := by
      simp only [planQuery, hvalid, if_true] at hp
      exact (Option.some.inj hp).symm
    subst hp'
    refine executeQuery_rowCount_le e now schema df _ 30 ?_ ?_ rfl (by omega) hs
    · exact fun h =>
        ((by with_unfolding_all decide : ("show" : String) ≠ "explain_schema")) h
    · exact fun h =>
        ((by with_unfolding_all decide : ("show" : String) ≠ "business_analysis")) h

/-- C10 witness: the amended coupling applied at the concrete schema,
with a successful concrete execution bounded by 30 rows. -/
theorem c10_last_n_witness :
    (findDateColumn schemaPostingDate = some ("BUDAT")) ∧
    (planQuery schemaPostingDate "show documents from the last 30 days").status =
        "success" ∧
    ((executeQuery 0 210 schemaPostingDate tableTwoDates planLast30).status = "success" →
      (executeQuery 0 210 schemaPostingDate tableTwoDates planLast30).rowCount ≤ 30) :=
  ⟨by with_unfolding_all decide,
   ((c10_last_n_coupling schemaPostingDate).2.2.2.1 ("BUDAT") (by with_unfolding_all decide)
     (by with_unfolding_all decide)).1,
   fun hs => ((c10_last_n_coupling schemaPostingDate).2.2.2.1 ("BUDAT")
     (by with_unfolding_all decide) (by with_unfolding_all decide)).2 0 210 tableTwoDates
     planLast30 (by with_unfolding_all decide) hs⟩

/-- C3 witness: the same one-row successful execution has a nonzero row
count and nonempty columns. -/
theorem c3_no_empty_witness :
    (planGtOne.action ≠ "explain_schema") ∧ (planGtOne.action ≠ "business_analysis") ∧
      ((executeQuery 0 0 schemaOneNum tableTwoNums planGtOne).status = "success" →
        (executeQuery 0 0 schemaOneNum tableTwoNums planGtOne).rowCount ≠ 0 ∧
          (executeQuery 0 0 schemaOneNum tableTwoNums planGtOne).columns ≠ []) :=
  ⟨by with_unfolding_all decide, by with_unfolding_all decide,
   (c3_no_empty_success 0 0 schemaOneNum tableTwoNums planGtOne
     (by with_unfolding_all decide) (by with_unfolding_all decide)).1⟩

end SapDemo
